import Mathlib

/-!
# cdh_exporter: health and timeseries collectors

A shallow embedding of `collector/service_collector.go` and
`collector/timeseries_collector.go`, and the properties of the two collectors
proved about it.

Conventions of the embedding

* A decoded JSON document (an `interface{}` filled by `json.Unmarshal`) is a
  value of `JSON`; the nil interface is `JSON.null`.
* A Go panic (failed type assertion, nil dereference, label arity mismatch in
  `MustNewConstMetric`) is an `Except.error` carrying a `Panic`. A panic in a
  collector is not recovered anywhere in the program, so it ends the process.
* One scrape threads a `Scrape` state: the upstream requests handed to
  `client.Do` so far and the metrics sent on `ch` so far, both oldest first.
  The state reached is kept when a panic occurs.
* The standard library and the network are parameters, collected in `Env`.
  The answer of the upstream may depend on the requests made before in the
  same scrape.
* `float64` values are only produced as constants, decoded and passed on; a
  value is represented by the rational number it denotes.
* Calls to the logger do not influence control flow and are left out, as are
  `sMutex.Lock` and `sMutex.Unlock` (one scrape is modelled at a time).
-/

namespace CdhExporter

/-! ## Values -/

/-- A `float64` that is a JSON number or a literal of the program. -/
abbrev Float64 := Rat

/-- A Go byte slice. -/
abbrev Bytes := List UInt8

/-- A decoded JSON document, the dynamic content of an `interface{}`. An object
is kept as an association list whose first binding of a key is the one seen by
`m[key]`. -/
inductive JSON where
  | null : JSON
  | bool : Bool → JSON
  | num : Float64 → JSON
  | str : String → JSON
  | arr : List JSON → JSON
  | obj : List (String × JSON) → JSON

/-- The ways the program can panic. -/
inductive Panic where
  | typeAssertion
  | nilDereference
  | labelCardinality
  deriving DecidableEq

/-- The Go expression `m[key]` on a `map[string]interface{}`: the bound value,
or the nil interface when the key is absent. -/
def JSON.index (m : List (String × JSON)) (key : String) : JSON :=
  (m.lookup key).getD JSON.null

/-- The object held by a JSON value, if it is one. -/
def JSON.asMap? : JSON → Option (List (String × JSON))
  | JSON.obj m => some m
  | _ => none

/-- The array held by a JSON value, if it is one. -/
def JSON.asSlice? : JSON → Option (List JSON)
  | JSON.arr xs => some xs
  | _ => none

/-- The string held by a JSON value, if it is one. -/
def JSON.asString? : JSON → Option String
  | JSON.str s => some s
  | _ => none

/-- The number held by a JSON value, if it is one. -/
def JSON.asFloat64? : JSON → Option Float64
  | JSON.num x => some x
  | _ => none

/-! ## Metrics, requests and the scrape state -/

/-- A metric descriptor as built by `prometheus.NewDesc` with no constant
labels: fully qualified name, help text and variable label names. Descriptors
of a collector that is serving scrapes passed registration, so they carry no
error. -/
structure Desc where
  fqName : String
  help : String
  variableLabels : List String
  deriving DecidableEq

/-- A constant gauge metric as built by `prometheus.MustNewConstMetric`. -/
structure Sample where
  desc : Desc
  value : Float64
  labelValues : List String
  deriving DecidableEq

/-- An `http.Request` as the program fills it: method, URL, body and the
headers in the order they were added. -/
structure Request where
  method : String
  url : String
  body : Option Bytes
  header : List (String × String)
  deriving DecidableEq

/-- A non-nil `http.Response`: `data` is what `ioutil.ReadAll(res.Body)`
returns and `readErr` tells whether that read ended in an error (then `data`
is what was read before it). -/
structure Response where
  data : Bytes
  readErr : Bool

/-- The flags of `service_collector.go`. -/
structure Config where
  cdhAddress : String
  cdhCompenent : List String
  userAccount : String
  apiVersion : String
  clusterName : String

/-- The library and network behaviour the collectors run against.

* `urlParses url`: `http.NewRequest` with method GET or POST accepts `url`
  (it returns a nil request and an error otherwise).
* `roundTrip earlier req`: the response pointer returned by `client.Do(req)`
  once the requests `earlier` have been made in this scrape; `none` is the nil
  response that comes with a transport error.
* `unmarshal b`: the value `json.Unmarshal(b, &f)` stores in a nil
  `interface{}`; `none` is a decode error, which leaves `f` nil.
* `pathEscape`: `url.PathEscape`.
* `marshalReqBody query from`: `json.Marshal` of the `ReqBody` struct.
* `fromStamp category`: `time.Now().Add(-2*time.Minute).UTC().Format(time.RFC3339)`
  as evaluated in the call `assembleBody(category)`. -/
structure Env where
  urlParses : String → Bool
  roundTrip : List Request → Request → Option Response
  unmarshal : Bytes → Option JSON
  pathEscape : String → String
  marshalReqBody : String → String → Bytes
  fromStamp : String → String

/-- What one scrape (or the construction of a collector) has done so far:
requests handed to `client.Do` and metrics sent on `ch`, oldest first. -/
structure Scrape where
  fetches : List Request
  samples : List Sample

/-- The start of a scrape. -/
def Scrape.start : Scrape := { fetches := [], samples := [] }

/-- A Go statement sequence: it runs from a state and either completes with a
value or panics, leaving the state reached. -/
def M (α : Type) : Type := Scrape → Except Panic α × Scrape

/-- Sequencing of Go statements: completion with a value, and running a
second part after a first, where a panic of the first part ends the whole. -/
instance : Monad M where
  pure a := fun st => (Except.ok a, st)
  bind x f := fun st =>
    match x st with
    | (Except.ok a, st1) => f a st1
    | (Except.error p, st1) => (Except.error p, st1)

/-- A Go panic. -/
def throwPanic {α : Type} (p : Panic) : M α := fun st => (Except.error p, st)

/-- An unchecked type assertion `x.(T)`: the value when the dynamic type is
`T`, a panic otherwise. -/
def typeAssert {α : Type} (x : Option α) : M α :=
  match x with
  | some a => pure a
  | none => throwPanic Panic.typeAssertion

/-- A field or method access through a pointer: a panic when it is nil. -/
def deref {α : Type} (x : Option α) : M α :=
  match x with
  | some a => pure a
  | none => throwPanic Panic.nilDereference

/-- The loop `for _, x := range xs { body }`. -/
def forEach {α : Type} (xs : List α) (body : α → M Unit) : M Unit :=
  match xs with
  | [] => pure ()
  | x :: rest => do
    body x
    forEach rest body

/-- The call `prometheus.MustNewConstMetric(desc, prometheus.GaugeValue, value,
labelValues...)`: it panics when the number of label values differs from the
number of variable labels of the descriptor. -/
def mustNewConstMetric (desc : Desc) (value : Float64) (labelValues : List String) :
    M Sample :=
  if labelValues.length = desc.variableLabels.length then
    pure { desc := desc, value := value, labelValues := labelValues }
  else
    throwPanic Panic.labelCardinality

/-- The statement `ch <- metric`. -/
def send (metric : Sample) : M Unit := fun st =>
  (Except.ok (), { st with samples := st.samples ++ [metric] })

/-! ## Transport -/

/-- The call `http.NewRequest(method, url, body)` for method GET or POST. -/
def newRequest (env : Env) (method url : String) (body : Option Bytes) : Option Request :=
  if env.urlParses url then
    some { method := method, url := url, body := body, header := [] }
  else
    none

/-- The call `req.Header.Add(key, value)`. -/
def Request.headerAdd (req : Request) (key value : String) : Request :=
  { req with header := req.header ++ [(key, value)] }

/-- The call `client.Do(req)`: the request is recorded and the upstream
answers. -/
def clientDo (env : Env) (req : Request) : M (Option Response) := fun st =>
  (Except.ok (env.roundTrip st.fetches req), { st with fetches := st.fetches ++ [req] })

/-- The function `cdhResponse` of `service_collector.go`. The errors of
`http.NewRequest`, `client.Do` and `ioutil.ReadAll` are only logged; the
request and the response are used whatever the error. -/
def cdhResponse (env : Env) (url method : String) (reqBody : Option Bytes)
    (account : String) : M Bytes :=
  if method = "POST" then do
    let req ← deref (newRequest env method url reqBody)
    let req := req.headerAdd "content-type" "application/json;charset=utf-8"
    let req := req.headerAdd "Accept-Language" "zh-CN,zh;q=0.9"
    let req := req.headerAdd "Authorization" account
    let res ← clientDo env req
    let res ← deref res
    pure res.data
  else if method = "GET" then do
    let req ← deref (newRequest env method url none)
    let req := req.headerAdd "content-type" "application/json;charset=utf-8"
    let req := req.headerAdd "Accept-Language" "zh-CN,zh;q=0.9"
    let req := req.headerAdd "Authorization" account
    let res ← clientDo env req
    let res ← deref res
    pure res.data
  else
    pure []

/-- The statements `var f interface{}; err := json.Unmarshal(b, &f)`: the
decoded value, or the nil interface when decoding fails. -/
def unmarshalInto (env : Env) (b : Bytes) : JSON :=
  (env.unmarshal b).getD JSON.null

/-! ## Status ordinal -/

/-- The function `checkStatus` of `service_collector.go`. -/
def checkStatus (status : String) : Float64 :=
  if status = "GOOD" then 0
  else if status = "DISABLED" then 1
  else if status = "HISTORY_NOT_AVAILABLE" then 2
  else if status = "NOT_AVAILABLE" then 3
  else if status = "CONCERNING" then 4
  else if status = "BAD" then 5
  else 6

/-- The six recognised status tokens. -/
def statusTokens : List String :=
  ["GOOD", "DISABLED", "HISTORY_NOT_AVAILABLE", "NOT_AVAILABLE", "CONCERNING", "BAD"]


/-! ## Health status collector -/

/-- The struct `serviceCollector` (without its mutex). -/
structure serviceCollector where
  servieState : Desc
  serviceStateSummary : Desc
  servieRoleState : Desc
  servieRoleStateSummary : Desc

/-- The function `NewServiceCollector`. -/
def NewServiceCollector : serviceCollector :=
  { servieState :=
      { fqName := "cdh_service_state"
        help := "cdh component status, GOOD: 0, DISABLED: 1, HISTORY_NOT_AVAILABLE: 2, NOT_AVAILABLE: 3, CONCERNING: 4, BAD: 5, UNKNOW: 6"
        variableLabels := ["service_type", "health_check_name", "explanation"] }
    serviceStateSummary :=
      { fqName := "cdh_service_state_summary"
        help := "cdh service summary status, GOOD: 0, DISABLED: 1, HISTORY_NOT_AVAILABLE: 2, NOT_AVAILABLE: 3, CONCERNING: 4, BAD: 5, UNKNOW: 6"
        variableLabels := ["service_type"] }
    servieRoleState :=
      { fqName := "cdh_service_role_state"
        help := "cdh component role status, GOOD: 0, DISABLED: 1, HISTORY_NOT_AVAILABLE: 2, NOT_AVAILABLE: 3, CONCERNING: 4, BAD: 5, UNKNOW: 6"
        variableLabels := ["role_type", "cluster_name", "host_name", "service_type",
          "health_check_name", "explanation", "role_name"] }
    servieRoleStateSummary :=
      { fqName := "cdh_service_role_state_summary"
        help := "cdh service role summary status, GOOD: 0, DISABLED: 1, HISTORY_NOT_AVAILABLE: 2, NOT_AVAILABLE: 3, CONCERNING: 4, BAD: 5, UNKNOW: 6"
        variableLabels := ["role_type", "cluster_name", "host_name", "role_name",
          "service_type"] } }

/-- The method `serviceCollector.Describe`: the descriptors sent, in order. -/
def serviceCollector.Describe (s : serviceCollector) : List Desc :=
  [s.servieState, s.serviceStateSummary, s.servieRoleState, s.servieRoleStateSummary]

/-- The function `assembleSvcUrl`. -/
def assembleSvcUrl (url service apiVersion clustername : String) : String :=
  "http://" ++ url ++ "/api/" ++ apiVersion ++ "/clusters/" ++ clustername ++
    "/services/" ++ service ++ "?view=FULL_WITH_HEALTH_CHECK_EXPLANATION"

/-- Body of the loop over `nameHealthList` in `serviceCollector.Collect`;
`m` is the decoded service object. -/
def serviceCollector.collectServiceCheck (s : serviceCollector)
    (m : List (String × JSON)) (nameHealthData : JSON) : M Unit := do
  let nameHealthData ← typeAssert nameHealthData.asMap?
  let summary ← typeAssert (JSON.index nameHealthData "summary").asString?
  let type ← typeAssert (JSON.index m "type").asString?
  let name ← typeAssert (JSON.index nameHealthData "name").asString?
  let explanation ← typeAssert (JSON.index nameHealthData "explanation").asString?
  let metric ← mustNewConstMetric s.servieState (checkStatus summary) [type, name, explanation]
  send metric

/-- Body of the first loop over the components in `serviceCollector.Collect`. -/
def serviceCollector.collectService (env : Env) (cfg : Config) (s : serviceCollector)
    (clusterNameUrl cdhSvc : String) : M Unit := do
  let svcUrl := assembleSvcUrl cfg.cdhAddress cdhSvc cfg.apiVersion clusterNameUrl
  let b ← cdhResponse env svcUrl "GET" none cfg.userAccount
  let f := unmarshalInto env b
  let m ← typeAssert f.asMap?
  let nameHealthList ← typeAssert (JSON.index m "healthChecks").asSlice?
  let healthSummary ← typeAssert (JSON.index m "healthSummary").asString?
  let type ← typeAssert (JSON.index m "type").asString?
  let metric ← mustNewConstMetric s.serviceStateSummary (checkStatus healthSummary) [type]
  send metric
  forEach nameHealthList (s.collectServiceCheck m)

/-- Body of the loop over `roleHealthList` in `serviceCollector.Collect`. -/
def serviceCollector.collectRoleCheck (s : serviceCollector)
    (roleData serviceRefData hostRefData : List (String × JSON)) (roleHealthData : JSON) :
    M Unit := do
  let roleHealthData ← typeAssert roleHealthData.asMap?
  let summary ← typeAssert (JSON.index roleHealthData "summary").asString?
  let type ← typeAssert (JSON.index roleData "type").asString?
  let clusterName ← typeAssert (JSON.index serviceRefData "clusterName").asString?
  let hostname ← typeAssert (JSON.index hostRefData "hostname").asString?
  let serviceType ← typeAssert (JSON.index serviceRefData "serviceType").asString?
  let checkName ← typeAssert (JSON.index roleHealthData "name").asString?
  let explanation ← typeAssert (JSON.index roleHealthData "explanation").asString?
  let name ← typeAssert (JSON.index roleData "name").asString?
  let metric ← mustNewConstMetric s.servieRoleState (checkStatus summary)
    [type, clusterName, hostname, serviceType, checkName, explanation, name]
  send metric

/-- Body of the loop over `roleList` in `serviceCollector.Collect`. -/
def serviceCollector.collectRole (s : serviceCollector) (roleData : JSON) : M Unit := do
  let roleData ← typeAssert roleData.asMap?
  let serviceRefData ← typeAssert (JSON.index roleData "serviceRef").asMap?
  let hostRefData ← typeAssert (JSON.index roleData "hostRef").asMap?
  let roleHealthList ← typeAssert (JSON.index roleData "healthChecks").asSlice?
  let healthSummary ← typeAssert (JSON.index roleData "healthSummary").asString?
  let type ← typeAssert (JSON.index roleData "type").asString?
  let clusterName ← typeAssert (JSON.index serviceRefData "clusterName").asString?
  let hostname ← typeAssert (JSON.index hostRefData "hostname").asString?
  let name ← typeAssert (JSON.index roleData "name").asString?
  let serviceType ← typeAssert (JSON.index serviceRefData "serviceType").asString?
  let metric ← mustNewConstMetric s.servieRoleStateSummary (checkStatus healthSummary)
    [type, clusterName, hostname, name, serviceType]
  send metric
  forEach roleHealthList (s.collectRoleCheck roleData serviceRefData hostRefData)

/-- Body of the second loop over the components in `serviceCollector.Collect`. -/
def serviceCollector.collectRoles (env : Env) (cfg : Config) (s : serviceCollector)
    (clusterNameUrl cdhSvc : String) : M Unit := do
  let svcRoleUrl := assembleSvcUrl cfg.cdhAddress (cdhSvc ++ "/roles") cfg.apiVersion
    clusterNameUrl
  let b ← cdhResponse env svcRoleUrl "GET" none cfg.userAccount
  let r := unmarshalInto env b
  let m ← typeAssert r.asMap?
  let roleList ← typeAssert (JSON.index m "items").asSlice?
  forEach roleList s.collectRole

/-- The method `serviceCollector.Collect`. -/
def serviceCollector.Collect (env : Env) (cfg : Config) (s : serviceCollector) : M Unit := do
  let clusterNameUrl := env.pathEscape cfg.clusterName
  forEach cfg.cdhCompenent (s.collectService env cfg clusterNameUrl)
  forEach cfg.cdhCompenent (s.collectRoles env cfg clusterNameUrl)

/-! ## Timeseries collector -/

/-- The struct `metricInfo`. -/
structure metricInfo where
  Desc : Desc
  deriving DecidableEq

/-- The library function `prometheus.BuildFQName`. -/
def buildFQName (namespace_ subsystem name : String) : String :=
  if name = "" then ""
  else if namespace_ ≠ "" ∧ subsystem ≠ "" then namespace_ ++ "_" ++ subsystem ++ "_" ++ name
  else if namespace_ ≠ "" then namespace_ ++ "_" ++ name
  else if subsystem ≠ "" then subsystem ++ "_" ++ name
  else name

/-- The label names every timeseries descriptor is built with. -/
def timeseriesLabels : List String :=
  ["entity_name", "service_type", "category", "hostname", "role_type", "service_name"]

/-- The function `newServiceTimeseriesMetric`. -/
def newServiceTimeseriesMetric (metricName helpString : String) : metricInfo :=
  { Desc :=
      { fqName := buildFQName "" "cdh" metricName
        help := helpString
        variableLabels := timeseriesLabels } }

/-- The Go map assignment `m[key] = value` on a map kept as an association list
with one binding per key: an existing binding is replaced in place, a new key
is added at the end. -/
def mapAssign {β : Type} (m : List (String × β)) (key : String) (value : β) :
    List (String × β) :=
  match m with
  | [] => [(key, value)]
  | (k, v) :: rest =>
    if k = key then (k, value) :: rest else (k, v) :: mapAssign rest key value

/-- The struct `serviceTimeseriesExporter` (without its mutex); the map
`serverMetrics` is an association list with one binding per key. -/
structure serviceTimeseriesExporter where
  serverMetrics : List (String × metricInfo)

/-- The loop over `timeSeriesSchemaDataList` in `NewServiceTimeseriesExporter`,
from the map `sMetrics` built so far. -/
def schemaLoop (timeSeriesSchemaDataList : List JSON) (sMetrics : List (String × metricInfo)) :
    M (List (String × metricInfo)) :=
  match timeSeriesSchemaDataList with
  | [] => pure sMetrics
  | timeSeriesSchemaData :: rest => do
    let timeSeriesSchemaData ← typeAssert timeSeriesSchemaData.asMap?
    let metricName ← typeAssert (JSON.index timeSeriesSchemaData "name").asString?
    let description ← typeAssert (JSON.index timeSeriesSchemaData "description").asString?
    schemaLoop rest
      (mapAssign sMetrics metricName (newServiceTimeseriesMetric metricName description))

/-- The function `NewServiceTimeseriesExporter`. -/
def NewServiceTimeseriesExporter (env : Env) (cfg : Config) : M serviceTimeseriesExporter := do
  let timeseriesSchemaUrl :=
    "http://" ++ cfg.cdhAddress ++ "/api/" ++ cfg.apiVersion ++ "/timeseries/schema"
  let b ← cdhResponse env timeseriesSchemaUrl "GET" none cfg.userAccount
  let s := unmarshalInto env b
  let m ← typeAssert s.asMap?
  let timeSeriesSchemaDataList ← typeAssert (JSON.index m "items").asSlice?
  let sMetrics ← schemaLoop timeSeriesSchemaDataList []
  pure { serverMetrics := sMetrics }

/-- The method `serviceTimeseriesExporter.Describe`: the descriptors sent. Go
ranges over the map in an unspecified order; the list gives them in the order
of the association list. -/
def serviceTimeseriesExporter.Describe (s : serviceTimeseriesExporter) : List Desc :=
  s.serverMetrics.map fun kv => kv.2.Desc

/-- The function `assembleBody`. -/
def assembleBody (env : Env) (category : String) : Bytes :=
  env.marshalReqBody ("SELECT * WHERE category = " ++ category) (env.fromStamp category)

/-- Body of the loop over `serviceTimeSeriesData` in the SERVICE pass of
`serviceTimeseriesExporter.Collect`. -/
def serviceTimeseriesExporter.collectServiceSeries (s : serviceTimeseriesExporter)
    (serviceTimeSeries : JSON) : M Unit := do
  let serviceTimeSeries ← typeAssert serviceTimeSeries.asMap?
  let metadata ← typeAssert (JSON.index serviceTimeSeries "metadata").asMap?
  let data ← typeAssert (JSON.index serviceTimeSeries "data").asSlice?
  if data.length = 0 then
    pure ()
  else do
    let metricValue ← typeAssert (data.getD (data.length - 1) JSON.null).asMap?
    let metricName ← typeAssert (JSON.index metadata "metricName").asString?
    let found := s.serverMetrics.lookup metricName
    let attributes ← typeAssert (JSON.index metadata "attributes").asMap?
    match found with
    | some metricDesc => do
      let value ← typeAssert (JSON.index metricValue "value").asFloat64?
      let entityName ← typeAssert (JSON.index attributes "entityName").asString?
      let serviceType ← typeAssert (JSON.index attributes "serviceType").asString?
      let category ← typeAssert (JSON.index attributes "category").asString?
      let serviceName ← typeAssert (JSON.index attributes "serviceName").asString?
      let metric ← mustNewConstMetric metricDesc.Desc value
        [entityName, serviceType, category, "", "", serviceName]
      send metric
    | none => pure ()

/-- Body of the loop over `serviceTimeSeriesList` in the SERVICE pass. -/
def serviceTimeseriesExporter.collectServiceEntity (s : serviceTimeseriesExporter)
    (serviceTimeSeriesDatas : JSON) : M Unit := do
  let serviceTimeSeriesDatas ← typeAssert serviceTimeSeriesDatas.asMap?
  let serviceTimeSeriesData ←
    typeAssert (JSON.index serviceTimeSeriesDatas "timeSeries").asSlice?
  forEach serviceTimeSeriesData s.collectServiceSeries

/-- Body of the loop over `roleTimeSeriesData` in the ROLE pass of
`serviceTimeseriesExporter.Collect`. -/
def serviceTimeseriesExporter.collectRoleSeries (s : serviceTimeseriesExporter)
    (serviceTimeSeries : JSON) : M Unit := do
  let roleTimeSeries ← typeAssert serviceTimeSeries.asMap?
  let metadata ← typeAssert (JSON.index roleTimeSeries "metadata").asMap?
  let data ← typeAssert (JSON.index roleTimeSeries "data").asSlice?
  if data.length = 0 then
    pure ()
  else do
    let metricValue ← typeAssert (data.getD (data.length - 1) JSON.null).asMap?
    let metricName ← typeAssert (JSON.index metadata "metricName").asString?
    let found := s.serverMetrics.lookup metricName
    let attributes ← typeAssert (JSON.index metadata "attributes").asMap?
    match found with
    | some metricDesc => do
      let value ← typeAssert (JSON.index metricValue "value").asFloat64?
      let entityName ← typeAssert (JSON.index attributes "entityName").asString?
      let serviceType ← typeAssert (JSON.index attributes "serviceType").asString?
      let category ← typeAssert (JSON.index attributes "category").asString?
      let hostname ← typeAssert (JSON.index attributes "hostname").asString?
      let roleType ← typeAssert (JSON.index attributes "roleType").asString?
      let serviceName ← typeAssert (JSON.index attributes "serviceName").asString?
      let metric ← mustNewConstMetric metricDesc.Desc value
        [entityName, serviceType, category, hostname, roleType, serviceName]
      send metric
    | none => pure ()

/-- Body of the loop over `roleTimeSeriesList` in the ROLE pass. -/
def serviceTimeseriesExporter.collectRoleEntity (s : serviceTimeseriesExporter)
    (roleTimeSeriesDatas : JSON) : M Unit := do
  let roleTimeSeriesDatas ← typeAssert roleTimeSeriesDatas.asMap?
  let roleTimeSeriesData ← typeAssert (JSON.index roleTimeSeriesDatas "timeSeries").asSlice?
  forEach roleTimeSeriesData s.collectRoleSeries

/-- The method `serviceTimeseriesExporter.Collect`. -/
def serviceTimeseriesExporter.Collect (env : Env) (cfg : Config)
    (s : serviceTimeseriesExporter) : M Unit := do
  let serviceTimeseriesUrl := "http://" ++ cfg.cdhAddress ++ "/api/" ++ cfg.apiVersion ++ "/timeseries"
  let serviceReqBody := assembleBody env "SERVICE"
  let roleTimeseriesUrl := "http://" ++ cfg.cdhAddress ++ "/api/" ++ cfg.apiVersion ++ "/timeseries"
  let roleReqBody := assembleBody env "ROLE"
  let b ← cdhResponse env serviceTimeseriesUrl "POST" (some serviceReqBody) cfg.userAccount
  let t := unmarshalInto env b
  let serviceMap ← typeAssert t.asMap?
  let serviceTimeSeriesList ← typeAssert (JSON.index serviceMap "items").asSlice?
  forEach serviceTimeSeriesList s.collectServiceEntity
  let b ← cdhResponse env roleTimeseriesUrl "POST" (some roleReqBody) cfg.userAccount
  let r := unmarshalInto env b
  let roleMap ← typeAssert r.asMap?
  let roleTimeSeriesList ← typeAssert (JSON.index roleMap "items").asSlice?
  forEach roleTimeSeriesList s.collectRoleEntity

/-! ## Well-formed payloads

The data model of the upstream payloads and the reading of a decoded JSON
document as such a payload. A document is well formed when it reads as a
payload; fields beyond the ones read are allowed. -/

/-- A health check of a service or role. -/
structure HealthCheck where
  name : String
  summary : String
  explanation : String
  deriving DecidableEq

/-- A service resource. -/
structure Service where
  type : String
  healthSummary : String
  healthChecks : List HealthCheck
  deriving DecidableEq

/-- A role of a service, with the cluster name and service type of its
`serviceRef` and the host name of its `hostRef`. -/
structure Role where
  type : String
  name : String
  clusterName : String
  hostName : String
  serviceType : String
  healthSummary : String
  healthChecks : List HealthCheck
  deriving DecidableEq

/-- An entry of the timeseries schema listing. -/
structure MetricSchemaEntry where
  metricName : String
  description : String
  deriving DecidableEq

/-- The attributes of a timeseries. -/
structure Attributes where
  entityName : String
  serviceType : String
  category : String
  hostname : String
  roleType : String
  serviceName : String
  deriving DecidableEq

/-- One timeseries of an entity: metric name, attributes and the values of its
data points in response order. -/
structure Series where
  metricName : String
  attributes : Attributes
  data : List Float64
  deriving DecidableEq

/-- Reads every element of a JSON array with `f`. -/
def decodeList {α : Type} (f : JSON → Option α) : List JSON → Option (List α)
  | [] => some []
  | j :: js =>
    match f j, decodeList f js with
    | some a, some as => some (a :: as)
    | _, _ => none

/-- Reads an object with string fields `name`, `summary` and `explanation`. -/
def decodeHealthCheck (j : JSON) : Option HealthCheck := do
  let m ← j.asMap?
  let name ← (JSON.index m "name").asString?
  let summary ← (JSON.index m "summary").asString?
  let explanation ← (JSON.index m "explanation").asString?
  pure { name := name, summary := summary, explanation := explanation }

/-- Reads an object with string fields `type` and `healthSummary` and an array
`healthChecks` of health checks. -/
def decodeService (j : JSON) : Option Service := do
  let m ← j.asMap?
  let type ← (JSON.index m "type").asString?
  let healthSummary ← (JSON.index m "healthSummary").asString?
  let checks ← (JSON.index m "healthChecks").asSlice?
  let healthChecks ← decodeList decodeHealthCheck checks
  pure { type := type, healthSummary := healthSummary, healthChecks := healthChecks }

/-- Reads an object with string fields `type`, `name` and `healthSummary`, an
object `serviceRef` with strings `clusterName` and `serviceType`, an object
`hostRef` with a string `hostname`, and an array `healthChecks`. -/
def decodeRole (j : JSON) : Option Role := do
  let m ← j.asMap?
  let serviceRef ← (JSON.index m "serviceRef").asMap?
  let hostRef ← (JSON.index m "hostRef").asMap?
  let type ← (JSON.index m "type").asString?
  let name ← (JSON.index m "name").asString?
  let clusterName ← (JSON.index serviceRef "clusterName").asString?
  let hostName ← (JSON.index hostRef "hostname").asString?
  let serviceType ← (JSON.index serviceRef "serviceType").asString?
  let healthSummary ← (JSON.index m "healthSummary").asString?
  let checks ← (JSON.index m "healthChecks").asSlice?
  let healthChecks ← decodeList decodeHealthCheck checks
  pure { type := type, name := name, clusterName := clusterName, hostName := hostName,
         serviceType := serviceType, healthSummary := healthSummary,
         healthChecks := healthChecks }

/-- Reads a role-list response: an object with an array `items` of roles. -/
def decodeRoleList (j : JSON) : Option (List Role) := do
  let m ← j.asMap?
  let items ← (JSON.index m "items").asSlice?
  decodeList decodeRole items

/-- Reads an object with string fields `name` and `description`. -/
def decodeSchemaEntry (j : JSON) : Option MetricSchemaEntry := do
  let m ← j.asMap?
  let name ← (JSON.index m "name").asString?
  let description ← (JSON.index m "description").asString?
  pure { metricName := name, description := description }

/-- Reads a schema listing: an object with an array `items` of entries. -/
def decodeSchema (j : JSON) : Option (List MetricSchemaEntry) := do
  let m ← j.asMap?
  let items ← (JSON.index m "items").asSlice?
  decodeList decodeSchemaEntry items

/-- Reads a data point: an object with a number `value`. -/
def decodeDataPoint (j : JSON) : Option Float64 := do
  let m ← j.asMap?
  (JSON.index m "value").asFloat64?

/-- Reads the attributes of a series: strings `entityName`, `serviceType`,
`category` and `serviceName`, and for a ROLE series also `hostname` and
`roleType` (a SERVICE series need not carry them; they read as empty). -/
def decodeAttributes (role : Bool) (j : JSON) : Option Attributes := do
  let m ← j.asMap?
  let entityName ← (JSON.index m "entityName").asString?
  let serviceType ← (JSON.index m "serviceType").asString?
  let category ← (JSON.index m "category").asString?
  let hostname ← if role then (JSON.index m "hostname").asString? else some ""
  let roleType ← if role then (JSON.index m "roleType").asString? else some ""
  let serviceName ← (JSON.index m "serviceName").asString?
  pure { entityName := entityName, serviceType := serviceType, category := category,
         hostname := hostname, roleType := roleType, serviceName := serviceName }

/-- Reads a timeseries: an object with an object `metadata` (a string
`metricName` and `attributes`) and an array `data` of data points. -/
def decodeSeries (role : Bool) (j : JSON) : Option Series := do
  let m ← j.asMap?
  let metadata ← (JSON.index m "metadata").asMap?
  let points ← (JSON.index m "data").asSlice?
  let metricName ← (JSON.index metadata "metricName").asString?
  let attributes ← decodeAttributes role (JSON.index metadata "attributes")
  let data ← decodeList decodeDataPoint points
  pure { metricName := metricName, attributes := attributes, data := data }

/-- Reads an entity of a timeseries response: an object with an array
`timeSeries` of series. -/
def decodeEntity (role : Bool) (j : JSON) : Option (List Series) := do
  let m ← j.asMap?
  let series ← (JSON.index m "timeSeries").asSlice?
  decodeList (decodeSeries role) series

/-- Reads a timeseries response: an object with an array `items` of entities. -/
def decodeTimeseries (role : Bool) (j : JSON) : Option (List (List Series)) := do
  let m ← j.asMap?
  let items ← (JSON.index m "items").asSlice?
  decodeList (decodeEntity role) items

/-- The document the upstream sends for `req` once the requests `earlier` have
been made: the URL is accepted, a response arrives and its body decodes. -/
def answer (env : Env) (earlier : List Request) (req : Request) : Option JSON :=
  if env.urlParses req.url then
    (env.roundTrip earlier req).bind fun res => env.unmarshal res.data
  else
    none

/-- The upstream answers the requests `reqs`, made in this order after
`earlier`, with documents that read as the payloads `payloads`. -/
def Serves {α : Type} (env : Env) (decode : JSON → Option α) :
    List Request → List Request → List α → Prop
  | _, [], [] => True
  | earlier, req :: reqs, a :: as =>
    (answer env earlier req).bind decode = some a ∧
      Serves env decode (earlier ++ [req]) reqs as
  | _, _, _ => False

/-! ## Reference behaviour -/

/-- The request `cdhResponse` hands to `client.Do`. -/
def cdhRequest (method url : String) (body : Option Bytes) (account : String) : Request :=
  { method := method
    url := url
    body := body
    header := [("content-type", "application/json;charset=utf-8"),
               ("Accept-Language", "zh-CN,zh;q=0.9"),
               ("Authorization", account)] }

/-- The service URL of a component as the interface description writes it. -/
def serviceUrl (env : Env) (cfg : Config) (component : String) : String :=
  "http://" ++ cfg.cdhAddress ++ "/api/" ++ cfg.apiVersion ++ "/clusters/" ++
    env.pathEscape cfg.clusterName ++ "/services/" ++ component ++
    "?view=FULL_WITH_HEALTH_CHECK_EXPLANATION"

/-- The role-list URL of a component as the interface description writes it. -/
def roleListUrl (env : Env) (cfg : Config) (component : String) : String :=
  "http://" ++ cfg.cdhAddress ++ "/api/" ++ cfg.apiVersion ++ "/clusters/" ++
    env.pathEscape cfg.clusterName ++ "/services/" ++ component ++
    "/roles?view=FULL_WITH_HEALTH_CHECK_EXPLANATION"

/-- The service fetches of one health scrape, in order. -/
def serviceFetches (env : Env) (cfg : Config) : List Request :=
  cfg.cdhCompenent.map fun c => cdhRequest "GET" (serviceUrl env cfg c) none cfg.userAccount

/-- The role-list fetches of one health scrape, in order. -/
def roleListFetches (env : Env) (cfg : Config) : List Request :=
  cfg.cdhCompenent.map fun c => cdhRequest "GET" (roleListUrl env cfg c) none cfg.userAccount

/-- The samples of a service: its summary, then one detail per health check. -/
def serviceSamples (s : serviceCollector) (svc : Service) : List Sample :=
  { desc := s.serviceStateSummary, value := checkStatus svc.healthSummary,
    labelValues := [svc.type] } ::
  svc.healthChecks.map fun hc =>
    { desc := s.servieState, value := checkStatus hc.summary,
      labelValues := [svc.type, hc.name, hc.explanation] }

/-- The samples of a role: its summary, then one detail per health check. -/
def roleSamples (s : serviceCollector) (r : Role) : List Sample :=
  { desc := s.servieRoleStateSummary, value := checkStatus r.healthSummary,
    labelValues := [r.type, r.clusterName, r.hostName, r.name, r.serviceType] } ::
  r.healthChecks.map fun hc =>
    { desc := s.servieRoleState, value := checkStatus hc.summary,
      labelValues := [r.type, r.clusterName, r.hostName, r.serviceType, hc.name,
                      hc.explanation, r.name] }

/-- The reference sample sequence of one health scrape: the samples of the
services in component order, then those of the roles, by component and in
payload order. -/
def healthReference (s : serviceCollector) (services : List Service)
    (roleLists : List (List Role)) : List Sample :=
  services.flatMap (serviceSamples s) ++
    roleLists.flatMap fun roles => roles.flatMap (roleSamples s)

/-! ## Reference behaviour of the timeseries collector -/

/-- The schema request of `NewServiceTimeseriesExporter`. -/
def schemaFetch (cfg : Config) : Request :=
  cdhRequest "GET" ("http://" ++ cfg.cdhAddress ++ "/api/" ++ cfg.apiVersion ++
    "/timeseries/schema") none cfg.userAccount

/-- The timeseries query of one scrape for a category. -/
def timeseriesFetch (env : Env) (cfg : Config) (category : String) : Request :=
  cdhRequest "POST" ("http://" ++ cfg.cdhAddress ++ "/api/" ++ cfg.apiVersion ++ "/timeseries")
    (some (assembleBody env category)) cfg.userAccount

/-- The descriptor map of a schema listing: one binding per entry, keyed by
metric name, in listing order. -/
def schemaMap (entries : List MetricSchemaEntry) : List (String × metricInfo) :=
  entries.map fun e =>
    (e.metricName,
      { Desc :=
          { fqName := buildFQName "" "cdh" e.metricName
            help := e.description
            variableLabels := ["entity_name", "service_type", "category", "hostname",
              "role_type", "service_name"] } })

/-- The label values of a series: a SERVICE series has empty host name and
role type, a ROLE series takes all six from its attributes. -/
def seriesLabels (role : Bool) (a : Attributes) : List String :=
  if role then [a.entityName, a.serviceType, a.category, a.hostname, a.roleType, a.serviceName]
  else [a.entityName, a.serviceType, a.category, "", "", a.serviceName]

/-- The samples of one series: none when it has no data point or its metric
name is not in the descriptor map, else one sample carrying the last data
point under the descriptor of the metric name. -/
def seriesSamples (role : Bool) (s : serviceTimeseriesExporter) (v : Series) : List Sample :=
  match v.data.getLast?, s.serverMetrics.lookup v.metricName with
  | some x, some info =>
    [{ desc := info.Desc, value := x, labelValues := seriesLabels role v.attributes }]
  | _, _ => []

/-- The reference sample sequence of one timeseries scrape: the series of the
SERVICE response and then those of the ROLE response, by entity and in payload
order. -/
def timeseriesReference (s : serviceTimeseriesExporter)
    (serviceEntities roleEntities : List (List Series)) : List Sample :=
  (serviceEntities.flatMap fun e => e.flatMap (seriesSamples false s)) ++
    roleEntities.flatMap fun e => e.flatMap (seriesSamples true s)

/-! ## A concrete upstream

A small cluster with the components `hdfs` and `yarn`, used to run the
collectors on concrete inputs. -/

/-- The configuration of the concrete cluster. -/
def demoCfg : Config :=
  { cdhAddress := "1.1.1.1:17180"
    cdhCompenent := ["hdfs", "yarn"]
    userAccount := "Basic YWRtaW46YWRtaW4="
    apiVersion := "v33"
    clusterName := "Cluster 1" }

/-- A health check document. -/
def demoCheck (name summary explanation : String) : JSON :=
  JSON.obj [("name", JSON.str name), ("summary", JSON.str summary),
    ("explanation", JSON.str explanation), ("suppressed", JSON.bool false)]

/-- The service document of `hdfs`. -/
def demoHdfsDoc : JSON :=
  JSON.obj [("name", JSON.str "hdfs"), ("type", JSON.str "HDFS"),
    ("healthSummary", JSON.str "CONCERNING"),
    ("healthChecks", JSON.arr [demoCheck "HDFS_FREE_SPACE" "CONCERNING" "Space low.",
      demoCheck "HDFS_CANARY" "GOOD" "Canary passed."])]

/-- The service document of `yarn`. -/
def demoYarnDoc : JSON :=
  JSON.obj [("name", JSON.str "yarn"), ("type", JSON.str "YARN"),
    ("healthSummary", JSON.str "GOOD"), ("healthChecks", JSON.arr [])]

/-- The role list document of `hdfs`. -/
def demoHdfsRolesDoc : JSON :=
  JSON.obj [("items", JSON.arr [
    JSON.obj [("name", JSON.str "hdfs-NAMENODE-1"), ("type", JSON.str "NAMENODE"),
      ("serviceRef", JSON.obj [("clusterName", JSON.str "Cluster 1"),
        ("serviceName", JSON.str "hdfs"), ("serviceType", JSON.str "HDFS")]),
      ("hostRef", JSON.obj [("hostId", JSON.str "h-1"), ("hostname", JSON.str "nn1.example.com")]),
      ("healthSummary", JSON.str "BAD"),
      ("healthChecks", JSON.arr [demoCheck "NAME_NODE_SAFE_MODE" "BAD" "In safe mode."])]])]

/-- The role list document of `yarn`. -/
def demoYarnRolesDoc : JSON :=
  JSON.obj [("items", JSON.arr [])]

/-- The concrete upstream: every URL is accepted, the four health resources
are served with bodies that decode to the documents above, and anything else
gets a body that does not decode. Parameter `hdfs` is the document served for
the `hdfs` service. -/
def demoEnvWith (hdfs : JSON) : Env :=
  { urlParses := fun _ => true
    roundTrip := fun _ req =>
      if req.url = "http://1.1.1.1:17180/api/v33/clusters/Cluster%201/services/hdfs?view=FULL_WITH_HEALTH_CHECK_EXPLANATION" then
        some { data := [1], readErr := false }
      else if req.url = "http://1.1.1.1:17180/api/v33/clusters/Cluster%201/services/yarn?view=FULL_WITH_HEALTH_CHECK_EXPLANATION" then
        some { data := [2], readErr := false }
      else if req.url = "http://1.1.1.1:17180/api/v33/clusters/Cluster%201/services/hdfs/roles?view=FULL_WITH_HEALTH_CHECK_EXPLANATION" then
        some { data := [3], readErr := false }
      else if req.url = "http://1.1.1.1:17180/api/v33/clusters/Cluster%201/services/yarn/roles?view=FULL_WITH_HEALTH_CHECK_EXPLANATION" then
        some { data := [4], readErr := false }
      else
        some { data := [], readErr := false }
    unmarshal := fun b =>
      if b = [1] then some hdfs
      else if b = [2] then some demoYarnDoc
      else if b = [3] then some demoHdfsRolesDoc
      else if b = [4] then some demoYarnRolesDoc
      else none
    pathEscape := fun s => if s = "Cluster 1" then "Cluster%201" else s
    marshalReqBody := fun _ _ => []
    fromStamp := fun _ => "2024-01-01T00:00:00Z" }

/-- The concrete upstream serving the well-formed `hdfs` document. -/
def demoEnv : Env := demoEnvWith demoHdfsDoc

/-- The payload of `demoHdfsDoc`. -/
def demoHdfs : Service :=
  { type := "HDFS", healthSummary := "CONCERNING",
    healthChecks := [
      { name := "HDFS_FREE_SPACE", summary := "CONCERNING", explanation := "Space low." },
      { name := "HDFS_CANARY", summary := "GOOD", explanation := "Canary passed." }] }

/-- The payload of `demoYarnDoc`. -/
def demoYarn : Service :=
  { type := "YARN", healthSummary := "GOOD", healthChecks := [] }

/-- The payload of `demoHdfsRolesDoc`. -/
def demoHdfsRoles : List Role :=
  [{ type := "NAMENODE", name := "hdfs-NAMENODE-1", clusterName := "Cluster 1",
     hostName := "nn1.example.com", serviceType := "HDFS", healthSummary := "BAD",
     healthChecks := [
       { name := "NAME_NODE_SAFE_MODE", summary := "BAD", explanation := "In safe mode." }] }]


/-! ## A concrete timeseries upstream -/

/-- The schema listing with the single entry `cpu_user`. -/
def demoSchemaDoc : JSON :=
  JSON.obj [("items", JSON.arr [
    JSON.obj [("name", JSON.str "cpu_user"), ("description", JSON.str "CPU")]])]

/-- The payload of `demoSchemaDoc`. -/
def demoSchema : List MetricSchemaEntry :=
  [{ metricName := "cpu_user", description := "CPU" }]

/-- A timeseries document with the given metric name, attributes and data
point values. -/
def demoSeriesDoc (metricName : String) (attributes : JSON) (values : List Float64) : JSON :=
  JSON.obj [
    ("metadata", JSON.obj [("metricName", JSON.str metricName), ("attributes", attributes)]),
    ("data", JSON.arr (values.map fun x =>
      JSON.obj [("timestamp", JSON.str "2024-01-01T00:01:00.000Z"), ("value", JSON.num x)]))]

/-- The attributes document of the service `hdfs1`. -/
def demoServiceAttributes : JSON :=
  JSON.obj [("entityName", JSON.str "svc1"), ("serviceType", JSON.str "HDFS"),
    ("category", JSON.str "SERVICE"), ("serviceName", JSON.str "hdfs1")]

/-- The attributes document of a role of `hdfs1`. -/
def demoRoleAttributes : JSON :=
  JSON.obj [("entityName", JSON.str "role1"), ("serviceType", JSON.str "HDFS"),
    ("category", JSON.str "ROLE"), ("hostname", JSON.str "nn1.example.com"),
    ("roleType", JSON.str "NAMENODE"), ("serviceName", JSON.str "hdfs1")]

/-- A SERVICE response: one entity with the single series `cpu_user` and the
data points 1.0 and 2.5. -/
def demoServiceSeriesDoc : JSON :=
  JSON.obj [("items", JSON.arr [JSON.obj [("timeSeries", JSON.arr [
    demoSeriesDoc "cpu_user" demoServiceAttributes [1.0, 2.5]])]])]

/-- A ROLE response without items. -/
def demoNoSeriesDoc : JSON :=
  JSON.obj [("items", JSON.arr [])]

/-- A ROLE response: one entity with the series `cpu_user` and the data points
3.0, 9.0 and 4.0. -/
def demoRoleSeriesDoc : JSON :=
  JSON.obj [("items", JSON.arr [JSON.obj [("timeSeries", JSON.arr [
    demoSeriesDoc "cpu_user" demoRoleAttributes [3.0, 9.0, 4.0]])]])]

/-- The bytes of an ASCII text. -/
def asciiBytes (text : String) : Bytes :=
  text.toList.map fun c => UInt8.ofNat c.toNat

/-- The concrete timeseries upstream: every URL is accepted; the schema URL is
served with the listing `demoSchemaDoc`, and a POST to the timeseries URL with
the document `service` when the body is the SERVICE query and `role` when it
is the ROLE query. -/
def demoTsEnv (service role : JSON) : Env :=
  { urlParses := fun _ => true
    roundTrip := fun _ req =>
      if req.method = "GET" ∧ req.url = "http://1.1.1.1:17180/api/v33/timeseries/schema" then
        some { data := [5], readErr := false }
      else if req.method = "POST" ∧ req.url = "http://1.1.1.1:17180/api/v33/timeseries" then
        if req.body = some (asciiBytes "\x7b\"query\":\"SELECT * WHERE category = SERVICE\",\"from\":\"2024-01-01T00:00:00Z\"\x7d") then
          some { data := [6], readErr := false }
        else if req.body = some (asciiBytes "\x7b\"query\":\"SELECT * WHERE category = ROLE\",\"from\":\"2024-01-01T00:00:00Z\"\x7d") then
          some { data := [7], readErr := false }
        else
          some { data := [], readErr := false }
      else
        some { data := [], readErr := false }
    unmarshal := fun b =>
      if b = [5] then some demoSchemaDoc
      else if b = [6] then some service
      else if b = [7] then some role
      else none
    pathEscape := fun s => s
    marshalReqBody := fun query since =>
      asciiBytes ("\x7b\"query\":\"" ++ query ++ "\",\"from\":\"" ++ since ++ "\"\x7d")
    fromStamp := fun _ => "2024-01-01T00:00:00Z" }

/-- The exporter built from `demoSchemaDoc`. -/
def demoExporter : serviceTimeseriesExporter :=
  { serverMetrics := [("cpu_user", newServiceTimeseriesMetric "cpu_user" "CPU")] }

/-- The attributes of the service `hdfs1` as read from a SERVICE series. -/
def demoServiceAttrs : Attributes :=
  { entityName := "svc1", serviceType := "HDFS", category := "SERVICE", hostname := "",
    roleType := "", serviceName := "hdfs1" }

/-- The attributes of the role of `hdfs1`. -/
def demoRoleAttrs : Attributes :=
  { entityName := "role1", serviceType := "HDFS", category := "ROLE",
    hostname := "nn1.example.com", roleType := "NAMENODE", serviceName := "hdfs1" }

/-! ## Further definitions used in the statements -/

/-- Every descriptor of the map has the six timeseries labels. -/
def SixLabels (m : List (String × metricInfo)) : Prop :=
  ∀ kv ∈ m, kv.2.Desc.variableLabels = timeseriesLabels

/-- The `hdfs` service document without its `healthChecks` field. -/
def demoHdfsDocNoChecks : JSON :=
  JSON.obj [("name", JSON.str "hdfs"), ("type", JSON.str "HDFS"),
    ("healthSummary", JSON.str "CONCERNING")]

/-- The `yarn` service document without its `type` field. -/
def demoYarnDocNoType : JSON :=
  JSON.obj [("name", JSON.str "yarn"), ("healthSummary", JSON.str "GOOD"),
    ("healthChecks", JSON.arr [])]

/-- The concrete upstream serving `yarn` without its `type`. -/
def demoEnvNoType : Env :=
  { demoEnv with
    unmarshal := fun b => if b = [2] then some demoYarnDocNoType else demoEnv.unmarshal b }


/-- An upstream with failures: `http.NewRequest` rejects the URL with a blank
in its host, `client.Do` returns a nil response and an error for the host
`unreachable`, and every other response delivers the two bytes 123 and 34 before its
body read ends in an error. -/
def failingEnv : Env :=
  { demoEnv with
    urlParses := fun url => !(url = "http://bad host/api")
    roundTrip := fun _ req =>
      if req.url = "http://unreachable:17180/api/v33/timeseries/schema" ∨
          req.url = "http://unreachable:17180/api/v33/timeseries" then
        none
      else
        some { data := [123, 34], readErr := true } }

/-! ## Series as one scrape reads them -/

/-- What one scrape reads of a series against a descriptor map: the metric name
alone when it is not a key of the map, the whole series when it is. -/
inductive SeriesRead where
  | unknown (metricName : String)
  | known (v : Series)
  deriving DecidableEq

/-- Reads of a series what `Collect` reads before it looks up the metric name:
an object with an object `metadata` that holds a string `metricName`, and an
array `data`; when `data` is not empty, its last element is an object and
`metadata` holds an object `attributes`. Gives the metric name. -/
def decodeDropped (j : JSON) : Option String := do
  let m ← j.asMap?
  let metadata ← (JSON.index m "metadata").asMap?
  let points ← (JSON.index m "data").asSlice?
  let metricName ← (JSON.index metadata "metricName").asString?
  match points.getLast? with
  | none => pure metricName
  | some last => do
    let _ ← last.asMap?
    let _ ← (JSON.index metadata "attributes").asMap?
    pure metricName

/-- Reads a series against the descriptor map of `s`: a series whose metric
name is not a key needs only the shape of `decodeDropped`, a series whose
metric name is a key is read completely. -/
def decodeSeriesFor (role : Bool) (s : serviceTimeseriesExporter) (j : JSON) :
    Option SeriesRead := do
  let metricName ← decodeDropped j
  if (s.serverMetrics.lookup metricName).isSome then
    (decodeSeries role j).map SeriesRead.known
  else
    pure (SeriesRead.unknown metricName)

/-- Reads an entity of a timeseries response against the descriptor map. -/
def decodeEntityFor (role : Bool) (s : serviceTimeseriesExporter) (j : JSON) :
    Option (List SeriesRead) := do
  let m ← j.asMap?
  let series ← (JSON.index m "timeSeries").asSlice?
  decodeList (decodeSeriesFor role s) series

/-- Reads a timeseries response against the descriptor map. -/
def decodeTimeseriesFor (role : Bool) (s : serviceTimeseriesExporter) (j : JSON) :
    Option (List (List SeriesRead)) := do
  let m ← j.asMap?
  let items ← (JSON.index m "items").asSlice?
  decodeList (decodeEntityFor role s) items

/-- The samples of a series as read: none for an unknown metric name. -/
def readSamples (role : Bool) (s : serviceTimeseriesExporter) : SeriesRead → List Sample
  | SeriesRead.unknown _ => []
  | SeriesRead.known v => seriesSamples role s v

/-- A series document `mem_rss` with one data point and no attributes. -/
def demoBareSeriesDoc : JSON :=
  JSON.obj [("metadata", JSON.obj [("metricName", JSON.str "mem_rss")]),
    ("data", JSON.arr [JSON.obj [("value", JSON.num 7.0)]])]

/-- A SERVICE response: one entity with the series `mem_rss` without
attributes, followed by a well-formed series `cpu_user`. -/
def demoBareFirstDoc : JSON :=
  JSON.obj [("items", JSON.arr [JSON.obj [("timeSeries", JSON.arr [
    demoBareSeriesDoc,
    demoSeriesDoc "cpu_user" demoServiceAttributes [1.0, 2.5]])]])]

/-- A series document `mem_rss` whose data point has a text value and whose
attributes are an empty object. -/
def demoLooseSeriesDoc : JSON :=
  JSON.obj [("metadata", JSON.obj [("metricName", JSON.str "mem_rss"),
      ("attributes", JSON.obj [])]),
    ("data", JSON.arr [JSON.obj [("value", JSON.str "n/a")]])]

/-- A SERVICE response: one entity with a series `cpu_user`, the series
`mem_rss` of `demoLooseSeriesDoc`, a series `mem_rss` without data points and
without attributes, and a series `cpu_user` without data points. -/
def demoLooseSeriesResponse : JSON :=
  JSON.obj [("items", JSON.arr [JSON.obj [("timeSeries", JSON.arr [
    demoSeriesDoc "cpu_user" demoServiceAttributes [1.0, 2.5],
    demoLooseSeriesDoc,
    JSON.obj [("metadata", JSON.obj [("metricName", JSON.str "mem_rss")]),
      ("data", JSON.arr [])],
    demoSeriesDoc "cpu_user" demoServiceAttributes []])]])]

/-! ## Theorems -/

/-! ### Running statement sequences -/

theorem M.pure_apply {α : Type} (a : α) (st : Scrape) :
    (pure a : M α) st = (Except.ok a, st) := rfl

theorem M.pure_bind {α β : Type} (a : α) (f : α → M β) :
    (pure a >>= f) = f a := rfl

theorem M.bind_apply {α β : Type} (x : M α) (f : α → M β) (st : Scrape) :
    (x >>= f) st = match x st with
      | (Except.ok a, st1) => f a st1
      | (Except.error p, st1) => (Except.error p, st1) := rfl

theorem M.bind_of_ok {α β : Type} {x : M α} {f : α → M β} {st st1 : Scrape} {a : α}
    (h : x st = (Except.ok a, st1)) : (x >>= f) st = f a st1 := by
  rw [M.bind_apply, h]

theorem M.bind_of_error {α β : Type} {x : M α} {f : α → M β} {st st1 : Scrape} {p : Panic}
    (h : x st = (Except.error p, st1)) : (x >>= f) st = (Except.error p, st1) := by
  rw [M.bind_apply, h]

theorem typeAssert_some {α : Type} (a : α) : typeAssert (some a) = pure a := rfl

theorem typeAssert_none {α : Type} :
    typeAssert (none : Option α) = throwPanic Panic.typeAssertion := rfl

theorem deref_some {α : Type} (a : α) : deref (some a) = pure a := rfl

theorem deref_none {α : Type} :
    deref (none : Option α) = throwPanic Panic.nilDereference := rfl

theorem throwPanic_bind {α β : Type} (p : Panic) (f : α → M β) :
    (throwPanic p >>= f) = throwPanic p := rfl

theorem throwPanic_apply {α : Type} (p : Panic) (st : Scrape) :
    (throwPanic p : M α) st = (Except.error p, st) := rfl

theorem forEach_nil {α : Type} (body : α → M Unit) :
    forEach [] body = pure () := rfl

theorem forEach_cons {α : Type} (x : α) (xs : List α) (body : α → M Unit) :
    forEach (x :: xs) body = (body x >>= fun _ => forEach xs body) := rfl

attribute [simp] M.pure_apply M.pure_bind typeAssert_some typeAssert_none deref_some deref_none throwPanic_bind throwPanic_apply forEach_nil

/-! ### Reading payloads -/

theorem decodeList_cons {α : Type} {f : JSON → Option α} {j : JSON} {js : List JSON}
    {as : List α} (h : decodeList f (j :: js) = some as) :
    ∃ a rest, f j = some a ∧ decodeList f js = some rest ∧ as = a :: rest := by
  unfold decodeList at h
  split at h
  · rename_i a rest ha hrest
    exact ⟨a, rest, ha, hrest, by simpa using h.symm⟩
  · simp at h

theorem decodeList_nil {α : Type} {f : JSON → Option α} {as : List α}
    (h : decodeList f [] = some as) : as = [] := by
  simpa [decodeList] using h.symm

theorem decodeHealthCheck_some {j : JSON} {hc : HealthCheck}
    (h : decodeHealthCheck j = some hc) :
    ∃ m, j.asMap? = some m ∧ (JSON.index m "name").asString? = some hc.name ∧
      (JSON.index m "summary").asString? = some hc.summary ∧
      (JSON.index m "explanation").asString? = some hc.explanation := by
  simp only [decodeHealthCheck, Option.bind_eq_bind, Option.bind_eq_some, Option.pure_def,
    Option.some.injEq] at h
  obtain ⟨m, hm, n, hn, s, hs, e, he, rfl⟩ := h
  exact ⟨m, hm, hn, hs, he⟩

theorem decodeService_some {j : JSON} {svc : Service} (h : decodeService j = some svc) :
    ∃ m checks, j.asMap? = some m ∧ (JSON.index m "type").asString? = some svc.type ∧
      (JSON.index m "healthSummary").asString? = some svc.healthSummary ∧
      (JSON.index m "healthChecks").asSlice? = some checks ∧
      decodeList decodeHealthCheck checks = some svc.healthChecks := by
  simp only [decodeService, Option.bind_eq_bind, Option.bind_eq_some, Option.pure_def,
    Option.some.injEq] at h
  obtain ⟨m, hm, t, ht, s, hs, cs, hcs, l, hl, rfl⟩ := h
  exact ⟨m, cs, hm, ht, hs, hcs, hl⟩

theorem decodeRole_some {j : JSON} {r : Role} (h : decodeRole j = some r) :
    ∃ m serviceRef hostRef checks, j.asMap? = some m ∧
      (JSON.index m "serviceRef").asMap? = some serviceRef ∧
      (JSON.index m "hostRef").asMap? = some hostRef ∧
      (JSON.index m "type").asString? = some r.type ∧
      (JSON.index m "name").asString? = some r.name ∧
      (JSON.index serviceRef "clusterName").asString? = some r.clusterName ∧
      (JSON.index hostRef "hostname").asString? = some r.hostName ∧
      (JSON.index serviceRef "serviceType").asString? = some r.serviceType ∧
      (JSON.index m "healthSummary").asString? = some r.healthSummary ∧
      (JSON.index m "healthChecks").asSlice? = some checks ∧
      decodeList decodeHealthCheck checks = some r.healthChecks := by
  simp only [decodeRole, Option.bind_eq_bind, Option.bind_eq_some, Option.pure_def,
    Option.some.injEq] at h
  obtain ⟨m, hm, sr, hsr, hr, hhr, t, ht, n, hn, c, hc, hn2, hhn, st, hst, s, hs, cs, hcs,
    l, hl, rfl⟩ := h
  exact ⟨m, sr, hr, cs, hm, hsr, hhr, ht, hn, hc, hhn, hst, hs, hcs, hl⟩

theorem decodeRoleList_some {j : JSON} {roles : List Role} (h : decodeRoleList j = some roles) :
    ∃ m items, j.asMap? = some m ∧ (JSON.index m "items").asSlice? = some items ∧
      decodeList decodeRole items = some roles := by
  simp only [decodeRoleList, Option.bind_eq_bind, Option.bind_eq_some] at h
  obtain ⟨m, hm, items, hitems, hl⟩ := h
  exact ⟨m, items, hm, hitems, hl⟩

/-! ### Transport -/

theorem answer_some {env : Env} {earlier : List Request} {req : Request} {j : JSON}
    (h : answer env earlier req = some j) :
    env.urlParses req.url = true ∧
      ∃ res, env.roundTrip earlier req = some res ∧ env.unmarshal res.data = some j := by
  unfold answer at h
  split at h
  · rename_i hp
    simp only [Option.bind_eq_some] at h
    exact ⟨hp, h⟩
  · simp at h

theorem cdhResponse_get {env : Env} {url account : String} {st : Scrape} {j : JSON}
    (h : answer env st.fetches (cdhRequest "GET" url none account) = some j) :
    ∃ b, cdhResponse env url "GET" none account st =
        (Except.ok b, { st with fetches := st.fetches ++ [cdhRequest "GET" url none account] }) ∧
      unmarshalInto env b = j := by
  obtain ⟨hp, res, hres, hj⟩ := answer_some h
  refine ⟨res.data, ?_, by simp [unmarshalInto, hj]⟩
  have hp2 : env.urlParses url = true := hp
  have hres2 : env.roundTrip st.fetches
      { method := "GET", url := url, body := none,
        header := [("content-type", "application/json;charset=utf-8"),
          ("Accept-Language", "zh-CN,zh;q=0.9"), ("Authorization", account)] } = some res := hres
  simp [cdhResponse, newRequest, hp2, Request.headerAdd, clientDo, M.bind_apply, hres2,
    cdhRequest]

theorem cdhResponse_post {env : Env} {url account : String} {body : Bytes} {st : Scrape}
    {j : JSON}
    (h : answer env st.fetches (cdhRequest "POST" url (some body) account) = some j) :
    ∃ b, cdhResponse env url "POST" (some body) account st =
        (Except.ok b,
          { st with fetches := st.fetches ++ [cdhRequest "POST" url (some body) account] }) ∧
      unmarshalInto env b = j := by
  obtain ⟨hp, res, hres, hj⟩ := answer_some h
  refine ⟨res.data, ?_, by simp [unmarshalInto, hj]⟩
  have hp2 : env.urlParses url = true := hp
  have hres2 : env.roundTrip st.fetches
      { method := "POST", url := url, body := some body,
        header := [("content-type", "application/json;charset=utf-8"),
          ("Accept-Language", "zh-CN,zh;q=0.9"), ("Authorization", account)] } = some res := hres
  simp [cdhResponse, newRequest, hp2, Request.headerAdd, clientDo, M.bind_apply, hres2,
    cdhRequest]


/-! ### Health status collector on well-formed payloads -/

theorem assembleSvcUrl_service (env : Env) (cfg : Config) (c : String) :
    assembleSvcUrl cfg.cdhAddress c cfg.apiVersion (env.pathEscape cfg.clusterName) =
      serviceUrl env cfg c := rfl

theorem assembleSvcUrl_roles (env : Env) (cfg : Config) (c : String) :
    assembleSvcUrl cfg.cdhAddress (c ++ "/roles") cfg.apiVersion
        (env.pathEscape cfg.clusterName) = roleListUrl env cfg c := by
  have h : "/roles" ++ "?view=FULL_WITH_HEALTH_CHECK_EXPLANATION" =
      "/roles?view=FULL_WITH_HEALTH_CHECK_EXPLANATION" := by decide
  simp only [assembleSvcUrl, roleListUrl, String.append_assoc, h]

theorem forEach_serviceChecks (m : List (String × JSON)) (type : String)
    (htype : (JSON.index m "type").asString? = some type) :
    ∀ (checks : List JSON) (hcs : List HealthCheck) (st : Scrape),
      decodeList decodeHealthCheck checks = some hcs →
      forEach checks (NewServiceCollector.collectServiceCheck m) st =
        (Except.ok (), { st with samples := st.samples ++ hcs.map fun hc =>
          { desc := NewServiceCollector.servieState, value := checkStatus hc.summary,
            labelValues := [type, hc.name, hc.explanation] } }) := by
  intro checks
  induction checks with
  | nil =>
    intro hcs st h
    rw [decodeList_nil h]
    simp
  | cons j js ih =>
    intro hcs st h
    obtain ⟨hc, rest, hj, hjs, rfl⟩ := decodeList_cons h
    obtain ⟨d, hd, hn, hs, he⟩ := decodeHealthCheck_some hj
    have step : NewServiceCollector.collectServiceCheck m j st =
        (Except.ok (), { st with samples := st.samples ++ [
          { desc := NewServiceCollector.servieState, value := checkStatus hc.summary,
            labelValues := [type, hc.name, hc.explanation] }] }) := by
      simp [serviceCollector.collectServiceCheck, hd, hn, hs, he, htype, mustNewConstMetric,
        NewServiceCollector, send]
    rw [forEach_cons, M.bind_of_ok step, ih rest _ hjs]
    simp

theorem collectService_wellFormed (env : Env) (cfg : Config) (c : String) (st : Scrape)
    (svc : Service)
    (h : (answer env st.fetches
      (cdhRequest "GET" (serviceUrl env cfg c) none cfg.userAccount)).bind decodeService =
        some svc) :
    NewServiceCollector.collectService env cfg (env.pathEscape cfg.clusterName) c st =
      (Except.ok (),
        { fetches := st.fetches ++ [cdhRequest "GET" (serviceUrl env cfg c) none cfg.userAccount]
          samples := st.samples ++ serviceSamples NewServiceCollector svc }) := by
  simp only [Option.bind_eq_some] at h
  obtain ⟨j, hj, hsvc⟩ := h
  obtain ⟨b, hb, hbj⟩ := cdhResponse_get hj
  obtain ⟨m, checks, hm, ht, hs, hcs, hl⟩ := decodeService_some hsvc
  unfold serviceCollector.collectService
  simp only [assembleSvcUrl_service]
  rw [M.bind_of_ok hb, hbj]
  simp only [hm, hcs, hs, ht, typeAssert_some, M.pure_bind]
  have hmk : mustNewConstMetric NewServiceCollector.serviceStateSummary
      (checkStatus svc.healthSummary) [svc.type] =
      pure { desc := NewServiceCollector.serviceStateSummary,
             value := checkStatus svc.healthSummary, labelValues := [svc.type] } := by
    simp [mustNewConstMetric, NewServiceCollector]
  rw [hmk, M.pure_bind]
  have hsend : ∀ (x : Sample) (st1 : Scrape),
      send x st1 = (Except.ok (), { st1 with samples := st1.samples ++ [x] }) := fun _ _ => rfl
  rw [M.bind_of_ok (hsend _ _), forEach_serviceChecks m svc.type ht checks _ _ hl]
  simp [serviceSamples]

theorem forEach_collectService (env : Env) (cfg : Config) :
    ∀ (comps : List String) (svcs : List Service) (st : Scrape),
      Serves env decodeService st.fetches
        (comps.map fun c => cdhRequest "GET" (serviceUrl env cfg c) none cfg.userAccount) svcs →
      forEach comps (NewServiceCollector.collectService env cfg
          (env.pathEscape cfg.clusterName)) st =
        (Except.ok (),
          { fetches := st.fetches ++
              comps.map fun c => cdhRequest "GET" (serviceUrl env cfg c) none cfg.userAccount
            samples := st.samples ++ svcs.flatMap (serviceSamples NewServiceCollector) }) := by
  intro comps
  induction comps with
  | nil =>
    intro svcs st h
    cases svcs with
    | nil => simp
    | cons a as => simp [Serves] at h
  | cons c cs ih =>
    intro svcs st h
    cases svcs with
    | nil => simp [Serves] at h
    | cons a as =>
      simp only [List.map_cons, Serves] at h
      obtain ⟨h1, h2⟩ := h
      rw [forEach_cons, M.bind_of_ok (collectService_wellFormed env cfg c st a h1)]
      rw [ih as _ h2]
      simp

theorem forEach_roleChecks (roleData serviceRefData hostRefData : List (String × JSON))
    (r : Role)
    (ht : (JSON.index roleData "type").asString? = some r.type)
    (hn : (JSON.index roleData "name").asString? = some r.name)
    (hc : (JSON.index serviceRefData "clusterName").asString? = some r.clusterName)
    (hh : (JSON.index hostRefData "hostname").asString? = some r.hostName)
    (hst : (JSON.index serviceRefData "serviceType").asString? = some r.serviceType) :
    ∀ (checks : List JSON) (hcs : List HealthCheck) (st : Scrape),
      decodeList decodeHealthCheck checks = some hcs →
      forEach checks
          (NewServiceCollector.collectRoleCheck roleData serviceRefData hostRefData) st =
        (Except.ok (), { st with samples := st.samples ++ hcs.map fun hc =>
          { desc := NewServiceCollector.servieRoleState, value := checkStatus hc.summary,
            labelValues := [r.type, r.clusterName, r.hostName, r.serviceType, hc.name,
              hc.explanation, r.name] } }) := by
  intro checks
  induction checks with
  | nil =>
    intro hcs st h
    rw [decodeList_nil h]
    simp
  | cons j js ih =>
    intro hcs st h
    obtain ⟨x, rest, hj, hjs, rfl⟩ := decodeList_cons h
    obtain ⟨d, hd, hdn, hds, hde⟩ := decodeHealthCheck_some hj
    have step : NewServiceCollector.collectRoleCheck roleData serviceRefData hostRefData j st =
        (Except.ok (), { st with samples := st.samples ++ [
          { desc := NewServiceCollector.servieRoleState, value := checkStatus x.summary,
            labelValues := [r.type, r.clusterName, r.hostName, r.serviceType, x.name,
              x.explanation, r.name] }] }) := by
      simp [serviceCollector.collectRoleCheck, hd, hdn, hds, hde, ht, hn, hc, hh, hst,
        mustNewConstMetric, NewServiceCollector, send]
    rw [forEach_cons, M.bind_of_ok step, ih rest _ hjs]
    simp

theorem collectRole_wellFormed (j : JSON) (r : Role) (st : Scrape)
    (h : decodeRole j = some r) :
    NewServiceCollector.collectRole j st =
      (Except.ok (), { st with samples := st.samples ++ roleSamples NewServiceCollector r }) := by
  obtain ⟨m, sr, hr, cs, hm, hsr, hhr, ht, hn, hc, hhn, hst, hs, hcs, hl⟩ := decodeRole_some h
  unfold serviceCollector.collectRole
  simp only [hm, hsr, hhr, ht, hn, hc, hhn, hst, hs, hcs, typeAssert_some, M.pure_bind]
  have hmk : mustNewConstMetric NewServiceCollector.servieRoleStateSummary
      (checkStatus r.healthSummary) [r.type, r.clusterName, r.hostName, r.name, r.serviceType] =
      pure { desc := NewServiceCollector.servieRoleStateSummary,
             value := checkStatus r.healthSummary,
             labelValues := [r.type, r.clusterName, r.hostName, r.name, r.serviceType] } := by
    simp [mustNewConstMetric, NewServiceCollector]
  rw [hmk, M.pure_bind]
  have hsend : ∀ (x : Sample) (st1 : Scrape),
      send x st1 = (Except.ok (), { st1 with samples := st1.samples ++ [x] }) := fun _ _ => rfl
  rw [M.bind_of_ok (hsend _ _), forEach_roleChecks m sr hr r ht hn hc hhn hst cs _ _ hl]
  simp [roleSamples]

theorem forEach_collectRole :
    ∀ (items : List JSON) (roles : List Role) (st : Scrape),
      decodeList decodeRole items = some roles →
      forEach items NewServiceCollector.collectRole st =
        (Except.ok (),
          { st with samples := st.samples ++ roles.flatMap (roleSamples NewServiceCollector) }) := by
  intro items
  induction items with
  | nil =>
    intro roles st h
    rw [decodeList_nil h]
    simp
  | cons j js ih =>
    intro roles st h
    obtain ⟨r, rest, hj, hjs, rfl⟩ := decodeList_cons h
    rw [forEach_cons, M.bind_of_ok (collectRole_wellFormed j r st hj), ih rest _ hjs]
    simp

theorem collectRoles_wellFormed (env : Env) (cfg : Config) (c : String) (st : Scrape)
    (roles : List Role)
    (h : (answer env st.fetches
      (cdhRequest "GET" (roleListUrl env cfg c) none cfg.userAccount)).bind decodeRoleList =
        some roles) :
    NewServiceCollector.collectRoles env cfg (env.pathEscape cfg.clusterName) c st =
      (Except.ok (),
        { fetches := st.fetches ++
            [cdhRequest "GET" (roleListUrl env cfg c) none cfg.userAccount]
          samples := st.samples ++ roles.flatMap (roleSamples NewServiceCollector) }) := by
  simp only [Option.bind_eq_some] at h
  obtain ⟨j, hj, hroles⟩ := h
  obtain ⟨b, hb, hbj⟩ := cdhResponse_get hj
  obtain ⟨m, items, hm, hitems, hl⟩ := decodeRoleList_some hroles
  unfold serviceCollector.collectRoles
  simp only [assembleSvcUrl_roles]
  rw [M.bind_of_ok hb, hbj]
  simp only [hm, hitems, typeAssert_some, M.pure_bind]
  rw [forEach_collectRole items roles _ hl]

theorem forEach_collectRoles (env : Env) (cfg : Config) :
    ∀ (comps : List String) (roleLists : List (List Role)) (st : Scrape),
      Serves env decodeRoleList st.fetches
        (comps.map fun c => cdhRequest "GET" (roleListUrl env cfg c) none cfg.userAccount)
        roleLists →
      forEach comps (NewServiceCollector.collectRoles env cfg
          (env.pathEscape cfg.clusterName)) st =
        (Except.ok (),
          { fetches := st.fetches ++
              comps.map fun c => cdhRequest "GET" (roleListUrl env cfg c) none cfg.userAccount
            samples := st.samples ++
              roleLists.flatMap fun roles => roles.flatMap (roleSamples NewServiceCollector) }) := by
  intro comps
  induction comps with
  | nil =>
    intro roleLists st h
    cases roleLists with
    | nil => simp
    | cons a as => simp [Serves] at h
  | cons c cs ih =>
    intro roleLists st h
    cases roleLists with
    | nil => simp [Serves] at h
    | cons a as =>
      simp only [List.map_cons, Serves] at h
      obtain ⟨h1, h2⟩ := h
      rw [forEach_cons, M.bind_of_ok (collectRoles_wellFormed env cfg c st a h1)]
      rw [ih as _ h2]
      simp

/-- One health scrape on well-formed payloads: it completes, having made the
service fetches and then the role-list fetches and emitted the reference
sequence. -/
theorem healthCollect_wellFormed (env : Env) (cfg : Config) (services : List Service)
    (roleLists : List (List Role))
    (hsvc : Serves env decodeService [] (serviceFetches env cfg) services)
    (hrole : Serves env decodeRoleList (serviceFetches env cfg) (roleListFetches env cfg)
      roleLists) :
    NewServiceCollector.Collect env cfg Scrape.start =
      (Except.ok (),
        { fetches := serviceFetches env cfg ++ roleListFetches env cfg
          samples := healthReference NewServiceCollector services roleLists }) := by
  have h1 : forEach cfg.cdhCompenent (NewServiceCollector.collectService env cfg
      (env.pathEscape cfg.clusterName)) Scrape.start =
      (Except.ok (), { fetches := serviceFetches env cfg,
                       samples := services.flatMap (serviceSamples NewServiceCollector) }) :=
    (forEach_collectService env cfg cfg.cdhCompenent services Scrape.start hsvc).trans
      (by simp [Scrape.start, serviceFetches])
  have h2 := forEach_collectRoles env cfg cfg.cdhCompenent roleLists
    { fetches := serviceFetches env cfg,
      samples := services.flatMap (serviceSamples NewServiceCollector) } hrole
  show (forEach cfg.cdhCompenent (NewServiceCollector.collectService env cfg
      (env.pathEscape cfg.clusterName)) >>= fun _ =>
        forEach cfg.cdhCompenent (NewServiceCollector.collectRoles env cfg
          (env.pathEscape cfg.clusterName))) Scrape.start = _
  rw [M.bind_of_ok h1, h2]
  rfl


/-! ### Timeseries collector: construction -/

theorem M.bind_ok_inv {α β : Type} {x : M α} {f : α → M β} {st st2 : Scrape} {b : β}
    (h : (x >>= f) st = (Except.ok b, st2)) :
    ∃ a st1, x st = (Except.ok a, st1) ∧ f a st1 = (Except.ok b, st2) := by
  rw [M.bind_apply] at h
  cases hx : x st with
  | mk r st1 =>
    rw [hx] at h
    cases r with
    | error p => simp at h
    | ok a => exact ⟨a, st1, rfl, h⟩

theorem typeAssert_ok_inv {α : Type} {x : Option α} {st st1 : Scrape} {a : α}
    (h : typeAssert x st = (Except.ok a, st1)) : x = some a ∧ st1 = st := by
  cases x with
  | none => simp at h
  | some y =>
    simp only [typeAssert_some, M.pure_apply, Prod.mk.injEq, Except.ok.injEq] at h
    exact ⟨by rw [h.1], h.2.symm⟩

theorem decodeSchemaEntry_some {j : JSON} {e : MetricSchemaEntry}
    (h : decodeSchemaEntry j = some e) :
    ∃ m, j.asMap? = some m ∧ (JSON.index m "name").asString? = some e.metricName ∧
      (JSON.index m "description").asString? = some e.description := by
  simp only [decodeSchemaEntry, Option.bind_eq_bind, Option.bind_eq_some, Option.pure_def,
    Option.some.injEq] at h
  obtain ⟨m, hm, n, hn, d, hd, rfl⟩ := h
  exact ⟨m, hm, hn, hd⟩

theorem decodeSchema_some {j : JSON} {entries : List MetricSchemaEntry}
    (h : decodeSchema j = some entries) :
    ∃ m items, j.asMap? = some m ∧ (JSON.index m "items").asSlice? = some items ∧
      decodeList decodeSchemaEntry items = some entries := by
  simp only [decodeSchema, Option.bind_eq_bind, Option.bind_eq_some] at h
  obtain ⟨m, hm, items, hitems, hl⟩ := h
  exact ⟨m, items, hm, hitems, hl⟩

theorem mapAssign_fresh {β : Type} (key : String) (value : β) :
    ∀ (m : List (String × β)), key ∉ m.map Prod.fst → mapAssign m key value = m ++ [(key, value)] := by
  intro m
  induction m with
  | nil => intro _; rfl
  | cons kv rest ih =>
    intro h
    obtain ⟨k, v⟩ := kv
    simp only [List.map_cons, List.mem_cons, not_or] at h
    have hk : ¬ k = key := fun e => h.1 e.symm
    simp only [mapAssign, hk, if_false, List.cons_append, ih h.2]

theorem schemaMap_keys (entries : List MetricSchemaEntry) :
    (schemaMap entries).map Prod.fst = entries.map fun e => e.metricName := by
  simp [schemaMap, Function.comp_def]

theorem schemaLoop_wellFormed :
    ∀ (items : List JSON) (entries done : List MetricSchemaEntry) (st : Scrape),
      decodeList decodeSchemaEntry items = some entries →
      ((done ++ entries).map fun e => e.metricName).Nodup →
      schemaLoop items (schemaMap done) st = (Except.ok (schemaMap (done ++ entries)), st) := by
  intro items
  induction items with
  | nil =>
    intro entries done st h _
    rw [decodeList_nil h]
    simp [schemaLoop]
  | cons j js ih =>
    intro entries done st h hnd
    obtain ⟨e, rest, hj, hjs, rfl⟩ := decodeList_cons h
    obtain ⟨m, hm, hn, hd⟩ := decodeSchemaEntry_some hj
    unfold schemaLoop
    simp only [hm, hn, hd, typeAssert_some, M.pure_bind]
    have hfresh : e.metricName ∉ (schemaMap done).map Prod.fst := by
      rw [schemaMap_keys]
      intro hmem
      rw [List.map_append, List.map_cons] at hnd
      have := (List.nodup_append.1 hnd).2.2
      exact this hmem (List.mem_cons_self _ _)
    have hstep : mapAssign (schemaMap done) e.metricName
        (newServiceTimeseriesMetric e.metricName e.description) = schemaMap (done ++ [e]) := by
      rw [mapAssign_fresh _ _ _ hfresh]
      simp [schemaMap, newServiceTimeseriesMetric, timeseriesLabels]
    rw [hstep, ih rest (done ++ [e]) st hjs (by simpa using hnd)]
    simp

theorem newExporter_wellFormed (env : Env) (cfg : Config) (st : Scrape)
    (entries : List MetricSchemaEntry)
    (h : (answer env st.fetches (schemaFetch cfg)).bind decodeSchema = some entries)
    (hnd : (entries.map fun e => e.metricName).Nodup) :
    NewServiceTimeseriesExporter env cfg st =
      (Except.ok { serverMetrics := schemaMap entries },
        { st with fetches := st.fetches ++ [schemaFetch cfg] }) := by
  simp only [Option.bind_eq_some] at h
  obtain ⟨j, hj, hentries⟩ := h
  obtain ⟨b, hb, hbj⟩ := cdhResponse_get hj
  obtain ⟨m, items, hm, hitems, hl⟩ := decodeSchema_some hentries
  unfold NewServiceTimeseriesExporter
  simp only []
  rw [M.bind_of_ok hb, hbj]
  simp only [hm, hitems, typeAssert_some, M.pure_bind]
  rw [show ([] : List (String × metricInfo)) = schemaMap [] from rfl,
    M.bind_of_ok (schemaLoop_wellFormed items entries [] _ hl (by simpa using hnd))]
  simp [schemaFetch]

theorem mapAssign_sixLabels (key help : String) :
    ∀ (m : List (String × metricInfo)), SixLabels m →
      SixLabels (mapAssign m key (newServiceTimeseriesMetric key help)) := by
  intro m
  induction m with
  | nil =>
    intro _ kv hkv
    simp only [mapAssign, List.mem_singleton] at hkv
    subst hkv
    rfl
  | cons kv rest ih =>
    intro h x hx
    obtain ⟨k, v⟩ := kv
    simp only [mapAssign] at hx
    split at hx
    · rcases List.mem_cons.1 hx with rfl | hx2
      · rfl
      · exact h x (List.mem_cons_of_mem _ hx2)
    · rcases List.mem_cons.1 hx with rfl | hx2
      · exact h _ (List.mem_cons_self _ _)
      · exact ih (fun y hy => h y (List.mem_cons_of_mem _ hy)) x hx2

theorem schemaLoop_sixLabels :
    ∀ (items : List JSON) (acc r : List (String × metricInfo)) (st st2 : Scrape),
      schemaLoop items acc st = (Except.ok r, st2) → SixLabels acc → SixLabels r := by
  intro items
  induction items with
  | nil =>
    intro acc r st st2 h hacc
    simp only [schemaLoop, M.pure_apply, Prod.mk.injEq, Except.ok.injEq] at h
    rw [← h.1]
    exact hacc
  | cons j js ih =>
    intro acc r st st2 h hacc
    unfold schemaLoop at h
    obtain ⟨m, sa, ha, h2⟩ := M.bind_ok_inv h
    obtain ⟨_, rfl⟩ := typeAssert_ok_inv ha
    obtain ⟨n, sb, hb, h3⟩ := M.bind_ok_inv h2
    obtain ⟨_, rfl⟩ := typeAssert_ok_inv hb
    obtain ⟨d, sc, hc, h4⟩ := M.bind_ok_inv h3
    obtain ⟨_, rfl⟩ := typeAssert_ok_inv hc
    exact ih _ r _ st2 h4 (mapAssign_sixLabels n d acc hacc)

/-- Every exporter returned by the constructor holds descriptors with the six
timeseries labels. -/
theorem newExporter_sixLabels (env : Env) (cfg : Config) (st : Scrape)
    (s : serviceTimeseriesExporter)
    (h : (NewServiceTimeseriesExporter env cfg st).1 = Except.ok s) :
    SixLabels s.serverMetrics := by
  cases hrun : NewServiceTimeseriesExporter env cfg st with
  | mk r st2 =>
    rw [hrun] at h
    dsimp only at h
    subst h
    unfold NewServiceTimeseriesExporter at hrun
    simp only [] at hrun
    obtain ⟨b, sa, _, h2⟩ := M.bind_ok_inv hrun
    obtain ⟨m, sb, hb, h3⟩ := M.bind_ok_inv h2
    obtain ⟨_, rfl⟩ := typeAssert_ok_inv hb
    obtain ⟨items, sc, hc, h4⟩ := M.bind_ok_inv h3
    obtain ⟨_, rfl⟩ := typeAssert_ok_inv hc
    obtain ⟨sMetrics, sd, hloop, h5⟩ := M.bind_ok_inv h4
    simp only [M.pure_apply, Prod.mk.injEq, Except.ok.injEq] at h5
    rw [← h5.1]
    exact schemaLoop_sixLabels items [] sMetrics _ _ hloop (fun kv hkv => by cases hkv)


/-! ### Timeseries collector: one scrape -/

theorem decodeDataPoint_some {j : JSON} {x : Float64} (h : decodeDataPoint j = some x) :
    ∃ m, j.asMap? = some m ∧ (JSON.index m "value").asFloat64? = some x := by
  simp only [decodeDataPoint, Option.bind_eq_bind, Option.bind_eq_some] at h
  exact h

theorem decodeAttributes_service_some {j : JSON} {a : Attributes}
    (h : decodeAttributes false j = some a) :
    ∃ m, j.asMap? = some m ∧ (JSON.index m "entityName").asString? = some a.entityName ∧
      (JSON.index m "serviceType").asString? = some a.serviceType ∧
      (JSON.index m "category").asString? = some a.category ∧
      (JSON.index m "serviceName").asString? = some a.serviceName := by
  simp only [decodeAttributes, Option.bind_eq_bind, Option.bind_eq_some, Option.pure_def,
    Option.some.injEq, Bool.false_eq_true, if_false] at h
  obtain ⟨m, hm, e, he, t, ht, c, hc, _, _, _, _, n, hn, rfl⟩ := h
  exact ⟨m, hm, he, ht, hc, hn⟩

theorem decodeAttributes_role_some {j : JSON} {a : Attributes}
    (h : decodeAttributes true j = some a) :
    ∃ m, j.asMap? = some m ∧ (JSON.index m "entityName").asString? = some a.entityName ∧
      (JSON.index m "serviceType").asString? = some a.serviceType ∧
      (JSON.index m "category").asString? = some a.category ∧
      (JSON.index m "hostname").asString? = some a.hostname ∧
      (JSON.index m "roleType").asString? = some a.roleType ∧
      (JSON.index m "serviceName").asString? = some a.serviceName := by
  simp only [decodeAttributes, Option.bind_eq_bind, Option.bind_eq_some, Option.pure_def,
    Option.some.injEq, if_true] at h
  obtain ⟨m, hm, e, he, t, ht, c, hc, hn, hhn, r, hr, n, hn, rfl⟩ := h
  exact ⟨m, hm, he, ht, hc, hhn, hr, hn⟩

theorem decodeSeries_some {role : Bool} {j : JSON} {v : Series}
    (h : decodeSeries role j = some v) :
    ∃ m metadata points, j.asMap? = some m ∧
      (JSON.index m "metadata").asMap? = some metadata ∧
      (JSON.index m "data").asSlice? = some points ∧
      (JSON.index metadata "metricName").asString? = some v.metricName ∧
      decodeAttributes role (JSON.index metadata "attributes") = some v.attributes ∧
      decodeList decodeDataPoint points = some v.data := by
  simp only [decodeSeries, Option.bind_eq_bind, Option.bind_eq_some, Option.pure_def,
    Option.some.injEq] at h
  obtain ⟨m, hm, md, hmd, ps, hps, n, hn, a, ha, d, hd, rfl⟩ := h
  exact ⟨m, md, ps, hm, hmd, hps, hn, ha, hd⟩

theorem decodeEntity_some {role : Bool} {j : JSON} {e : List Series}
    (h : decodeEntity role j = some e) :
    ∃ m series, j.asMap? = some m ∧ (JSON.index m "timeSeries").asSlice? = some series ∧
      decodeList (decodeSeries role) series = some e := by
  simp only [decodeEntity, Option.bind_eq_bind, Option.bind_eq_some] at h
  obtain ⟨m, hm, series, hseries, hl⟩ := h
  exact ⟨m, series, hm, hseries, hl⟩

theorem decodeTimeseries_some {role : Bool} {j : JSON} {es : List (List Series)}
    (h : decodeTimeseries role j = some es) :
    ∃ m items, j.asMap? = some m ∧ (JSON.index m "items").asSlice? = some items ∧
      decodeList (decodeEntity role) items = some es := by
  simp only [decodeTimeseries, Option.bind_eq_bind, Option.bind_eq_some] at h
  obtain ⟨m, hm, items, hitems, hl⟩ := h
  exact ⟨m, items, hm, hitems, hl⟩

theorem decodeList_last {α : Type} {f : JSON → Option α} :
    ∀ (js : List JSON) (as : List α), decodeList f js = some as → js ≠ [] →
      ∃ x, f (js.getD (js.length - 1) JSON.null) = some x ∧ as.getLast? = some x := by
  intro js
  induction js with
  | nil => intro as _ hne; exact absurd rfl hne
  | cons j rest ih =>
    intro as h _
    obtain ⟨a, as2, hj, hrest, rfl⟩ := decodeList_cons h
    cases rest with
    | nil =>
      rw [decodeList_nil hrest]
      exact ⟨a, by simpa using hj, rfl⟩
    | cons j2 rest2 =>
      obtain ⟨x, hx, hlast⟩ := ih as2 hrest (by simp)
      refine ⟨x, ?_, ?_⟩
      · simpa using hx
      · obtain ⟨b, bs, _, _, rfl⟩ := decodeList_cons hrest
        rw [List.getLast?_cons_cons]
        exact hlast

theorem lookup_mem {β : Type} (key : String) (value : β) :
    ∀ (m : List (String × β)), m.lookup key = some value → ∃ k, (k, value) ∈ m := by
  intro m
  induction m with
  | nil => intro h; simp at h
  | cons kv rest ih =>
    intro h
    obtain ⟨k, v⟩ := kv
    rw [List.lookup_cons] at h
    split at h
    · simp only [Option.some.injEq] at h
      subst h
      exact ⟨k, List.mem_cons_self _ _⟩
    · obtain ⟨k2, hk2⟩ := ih h
      exact ⟨k2, List.mem_cons_of_mem _ hk2⟩

theorem send_apply (x : Sample) (st : Scrape) :
    send x st = (Except.ok (), { st with samples := st.samples ++ [x] }) := rfl

theorem mustNewConstMetric_six (desc : Desc) (value : Float64) (a b c d e f : String)
    (h : desc.variableLabels = timeseriesLabels) :
    mustNewConstMetric desc value [a, b, c, d, e, f] =
      pure { desc := desc, value := value, labelValues := [a, b, c, d, e, f] } := by
  simp [mustNewConstMetric, h, timeseriesLabels]

theorem collectServiceSeries_wellFormed (s : serviceTimeseriesExporter)
    (hs : SixLabels s.serverMetrics) (j : JSON) (v : Series) (st : Scrape)
    (h : decodeSeries false j = some v) :
    s.collectServiceSeries j st =
      (Except.ok (), { st with samples := st.samples ++ seriesSamples false s v }) := by
  obtain ⟨m, md, ps, hm, hmd, hps, hn, ha, hd⟩ := decodeSeries_some h
  obtain ⟨am, ham, he, ht, hc, hsn⟩ := decodeAttributes_service_some ha
  unfold serviceTimeseriesExporter.collectServiceSeries
  simp only [hm, hmd, hps, typeAssert_some, M.pure_bind]
  cases ps with
  | nil =>
    have hv : v.data = [] := decodeList_nil hd
    simp [seriesSamples, hv]
  | cons p rest =>
    obtain ⟨x, hx, hlast⟩ := decodeList_last (p :: rest) v.data hd (by simp)
    obtain ⟨pm, hpm, hval⟩ := decodeDataPoint_some hx
    rw [if_neg (by simp)]
    simp only [hpm, hn, ham, typeAssert_some, M.pure_bind]
    cases hlk : s.serverMetrics.lookup v.metricName with
    | none => simp [seriesSamples, hlk]
    | some info =>
      obtain ⟨k, hk⟩ := lookup_mem _ _ _ hlk
      simp only [hval, he, ht, hc, hsn, typeAssert_some, M.pure_bind]
      rw [mustNewConstMetric_six _ _ _ _ _ _ _ _ (hs _ hk), M.pure_bind, send_apply]
      simp [seriesSamples, hlk, hlast, seriesLabels]

theorem collectRoleSeries_wellFormed (s : serviceTimeseriesExporter)
    (hs : SixLabels s.serverMetrics) (j : JSON) (v : Series) (st : Scrape)
    (h : decodeSeries true j = some v) :
    s.collectRoleSeries j st =
      (Except.ok (), { st with samples := st.samples ++ seriesSamples true s v }) := by
  obtain ⟨m, md, ps, hm, hmd, hps, hn, ha, hd⟩ := decodeSeries_some h
  obtain ⟨am, ham, he, ht, hc, hh, hr, hsn⟩ := decodeAttributes_role_some ha
  unfold serviceTimeseriesExporter.collectRoleSeries
  simp only [hm, hmd, hps, typeAssert_some, M.pure_bind]
  cases ps with
  | nil =>
    have hv : v.data = [] := decodeList_nil hd
    simp [seriesSamples, hv]
  | cons p rest =>
    obtain ⟨x, hx, hlast⟩ := decodeList_last (p :: rest) v.data hd (by simp)
    obtain ⟨pm, hpm, hval⟩ := decodeDataPoint_some hx
    rw [if_neg (by simp)]
    simp only [hpm, hn, ham, typeAssert_some, M.pure_bind]
    cases hlk : s.serverMetrics.lookup v.metricName with
    | none => simp [seriesSamples, hlk]
    | some info =>
      obtain ⟨k, hk⟩ := lookup_mem _ _ _ hlk
      simp only [hval, he, ht, hc, hh, hr, hsn, typeAssert_some, M.pure_bind]
      rw [mustNewConstMetric_six _ _ _ _ _ _ _ _ (hs _ hk), M.pure_bind, send_apply]
      simp [seriesSamples, hlk, hlast, seriesLabels]

/-- A loop whose body, on every element that reads as a payload, completes
and appends the samples of the payload, completes on a list of such elements
and appends the samples of all payloads in order. -/
theorem forEach_samples {α : Type} (decode : JSON → Option α) (body : JSON → M Unit)
    (out : α → List Sample)
    (hbody : ∀ (j : JSON) (a : α) (st : Scrape), decode j = some a →
      body j st = (Except.ok (), { st with samples := st.samples ++ out a })) :
    ∀ (js : List JSON) (as : List α) (st : Scrape), decodeList decode js = some as →
      forEach js body st =
        (Except.ok (), { st with samples := st.samples ++ as.flatMap out }) := by
  intro js
  induction js with
  | nil =>
    intro as st h
    rw [decodeList_nil h]
    simp
  | cons j rest ih =>
    intro as st h
    obtain ⟨a, as2, hj, hrest, rfl⟩ := decodeList_cons h
    rw [forEach_cons, M.bind_of_ok (hbody j a st hj), ih as2 _ hrest]
    simp

theorem collectServiceEntity_wellFormed (s : serviceTimeseriesExporter)
    (hs : SixLabels s.serverMetrics) (j : JSON) (e : List Series) (st : Scrape)
    (h : decodeEntity false j = some e) :
    s.collectServiceEntity j st =
      (Except.ok (), { st with samples := st.samples ++ e.flatMap (seriesSamples false s) }) := by
  obtain ⟨m, series, hm, hseries, hl⟩ := decodeEntity_some h
  unfold serviceTimeseriesExporter.collectServiceEntity
  simp only [hm, hseries, typeAssert_some, M.pure_bind]
  exact forEach_samples (decodeSeries false) s.collectServiceSeries (seriesSamples false s)
    (collectServiceSeries_wellFormed s hs) series e st hl

theorem collectRoleEntity_wellFormed (s : serviceTimeseriesExporter)
    (hs : SixLabels s.serverMetrics) (j : JSON) (e : List Series) (st : Scrape)
    (h : decodeEntity true j = some e) :
    s.collectRoleEntity j st =
      (Except.ok (), { st with samples := st.samples ++ e.flatMap (seriesSamples true s) }) := by
  obtain ⟨m, series, hm, hseries, hl⟩ := decodeEntity_some h
  unfold serviceTimeseriesExporter.collectRoleEntity
  simp only [hm, hseries, typeAssert_some, M.pure_bind]
  exact forEach_samples (decodeSeries true) s.collectRoleSeries (seriesSamples true s)
    (collectRoleSeries_wellFormed s hs) series e st hl

/-- One timeseries scrape on well-formed payloads: it completes, having made
the SERVICE query and then the ROLE query and emitted the reference
sequence. -/
theorem timeseriesCollect_wellFormed (env : Env) (cfg : Config)
    (s : serviceTimeseriesExporter) (hs : SixLabels s.serverMetrics)
    (serviceEntities roleEntities : List (List Series))
    (hsvc : (answer env [] (timeseriesFetch env cfg "SERVICE")).bind (decodeTimeseries false) =
      some serviceEntities)
    (hrole : (answer env [timeseriesFetch env cfg "SERVICE"]
      (timeseriesFetch env cfg "ROLE")).bind (decodeTimeseries true) = some roleEntities) :
    s.Collect env cfg Scrape.start =
      (Except.ok (),
        { fetches := [timeseriesFetch env cfg "SERVICE", timeseriesFetch env cfg "ROLE"]
          samples := timeseriesReference s serviceEntities roleEntities }) := by
  simp only [Option.bind_eq_some] at hsvc hrole
  obtain ⟨j1, hj1, hd1⟩ := hsvc
  obtain ⟨j2, hj2, hd2⟩ := hrole
  obtain ⟨m1, items1, hm1, hitems1, hl1⟩ := decodeTimeseries_some hd1
  obtain ⟨m2, items2, hm2, hitems2, hl2⟩ := decodeTimeseries_some hd2
  have hj1' : answer env Scrape.start.fetches (cdhRequest "POST"
      ("http://" ++ cfg.cdhAddress ++ "/api/" ++ cfg.apiVersion ++ "/timeseries")
      (some (assembleBody env "SERVICE")) cfg.userAccount) = some j1 := hj1
  obtain ⟨b1, hb1, hbj1⟩ := cdhResponse_post hj1'
  unfold serviceTimeseriesExporter.Collect
  simp only []
  rw [M.bind_of_ok hb1, hbj1]
  simp only [hm1, hitems1, typeAssert_some, M.pure_bind]
  rw [M.bind_of_ok (forEach_samples (decodeEntity false) s.collectServiceEntity
    (fun e => e.flatMap (seriesSamples false s)) (collectServiceEntity_wellFormed s hs)
    items1 serviceEntities _ hl1)]
  have hj2' : answer env
      ({ fetches := Scrape.start.fetches ++ [cdhRequest "POST"
          ("http://" ++ cfg.cdhAddress ++ "/api/" ++ cfg.apiVersion ++ "/timeseries")
          (some (assembleBody env "SERVICE")) cfg.userAccount],
         samples := Scrape.start.samples ++
          serviceEntities.flatMap fun e => e.flatMap (seriesSamples false s) } : Scrape).fetches
      (cdhRequest "POST"
        ("http://" ++ cfg.cdhAddress ++ "/api/" ++ cfg.apiVersion ++ "/timeseries")
        (some (assembleBody env "ROLE")) cfg.userAccount) = some j2 := hj2
  obtain ⟨b2, hb2, hbj2⟩ := cdhResponse_post hj2'
  rw [M.bind_of_ok hb2, hbj2]
  simp only [hm2, hitems2, typeAssert_some, M.pure_bind]
  rw [forEach_samples (decodeEntity true) s.collectRoleEntity
    (fun e => e.flatMap (seriesSamples true s)) (collectRoleEntity_wellFormed s hs)
    items2 roleEntities _ hl2]
  simp [Scrape.start, timeseriesReference, timeseriesFetch]

/-! ### Further lemmas -/

theorem forEach_append {α : Type} (body : α → M Unit) (st : Scrape) :
    ∀ (xs ys : List α),
      forEach (xs ++ ys) body st = (forEach xs body >>= fun _ => forEach ys body) st := by
  intro xs
  induction xs generalizing st with
  | nil => intro ys; rfl
  | cons x xs ih =>
    intro ys
    simp only [List.cons_append, forEach_cons, M.bind_apply]
    cases hx : body x st with
    | mk r st1 =>
      cases r with
      | error p => rfl
      | ok u =>
        simp only []
        rw [ih st1 ys, M.bind_apply]

theorem collectService_missingField (env : Env) (cfg : Config) (c : String) (st : Scrape)
    (j : JSON)
    (hj : answer env st.fetches
      (cdhRequest "GET" (serviceUrl env cfg c) none cfg.userAccount) = some j)
    (hbad : ∀ m, j.asMap? = some m →
      (JSON.index m "healthChecks").asSlice? = none ∨
      (JSON.index m "healthSummary").asString? = none ∨
      (JSON.index m "type").asString? = none) :
    NewServiceCollector.collectService env cfg (env.pathEscape cfg.clusterName) c st =
      (Except.error Panic.typeAssertion,
        { st with fetches := st.fetches ++
            [cdhRequest "GET" (serviceUrl env cfg c) none cfg.userAccount] }) := by
  obtain ⟨b, hb, hbj⟩ := cdhResponse_get hj
  unfold serviceCollector.collectService
  simp only [assembleSvcUrl_service]
  rw [M.bind_of_ok hb, hbj]
  cases hm : j.asMap? with
  | none => simp
  | some m =>
    simp only [typeAssert_some, M.pure_bind]
    cases h1 : (JSON.index m "healthChecks").asSlice? with
    | none => simp
    | some checks =>
      simp only [typeAssert_some, M.pure_bind]
      cases h2 : (JSON.index m "healthSummary").asString? with
      | none => simp
      | some summary =>
        simp only [typeAssert_some, M.pure_bind]
        cases h3 : (JSON.index m "type").asString? with
        | none => simp
        | some type =>
          rcases hbad m hm with h | h | h
          · rw [h1] at h; cases h
          · rw [h2] at h; cases h
          · rw [h3] at h; cases h

theorem seriesSamples_values (role : Bool) (s : serviceTimeseriesExporter) (v : Series) :
    (seriesSamples role s v).map (fun x => x.value) =
      if (s.serverMetrics.lookup v.metricName).isSome then v.data.getLast?.toList else [] := by
  unfold seriesSamples
  cases v.data.getLast? <;> cases s.serverMetrics.lookup v.metricName <;> simp

theorem getLast?_isSome_iff {α : Type} (l : List α) : l.getLast?.isSome = !l.isEmpty := by
  cases l with
  | nil => rfl
  | cons a as => simp [List.getLast?_cons]

theorem seriesSamples_labels (role : Bool) (s : serviceTimeseriesExporter) (v : Series) :
    (seriesSamples role s v).map (fun x => x.labelValues) =
      if (s.serverMetrics.lookup v.metricName).isSome && !v.data.isEmpty then
        [seriesLabels role v.attributes]
      else [] := by
  unfold seriesSamples
  rw [← getLast?_isSome_iff]
  cases v.data.getLast? <;> cases s.serverMetrics.lookup v.metricName <;> simp

theorem seriesSamples_desc (role : Bool) (s : serviceTimeseriesExporter) (v : Series)
    (x : Sample) (hx : x ∈ seriesSamples role s v) :
    ∃ kv ∈ s.serverMetrics, x.desc = kv.2.Desc := by
  unfold seriesSamples at hx
  cases hl : v.data.getLast? with
  | none => rw [hl] at hx; simp at hx
  | some y =>
    cases hk : s.serverMetrics.lookup v.metricName with
    | none => rw [hl, hk] at hx; simp at hx
    | some info =>
      rw [hl, hk] at hx
      simp only [List.mem_singleton] at hx
      obtain ⟨k, hmem⟩ := lookup_mem _ _ _ hk
      exact ⟨(k, info), hmem, by rw [hx]⟩

/-! ### Timeseries collector: series with an unknown metric name -/

theorem getD_last_of_getLast? {α : Type} (d : α) :
    ∀ (l : List α) (x : α), l.getLast? = some x → l.getD (l.length - 1) d = x ∧ l ≠ [] := by
  intro l
  induction l with
  | nil => intro x h; simp at h
  | cons a rest ih =>
    intro x h
    cases rest with
    | nil =>
      simp only [List.getLast?_singleton, Option.some.injEq] at h
      exact ⟨by simpa using h, by simp⟩
    | cons b rest2 =>
      rw [List.getLast?_cons_cons] at h
      obtain ⟨h1, _⟩ := ih x h
      exact ⟨by simpa using h1, by simp⟩

theorem decodeDropped_some {j : JSON} {name : String} (h : decodeDropped j = some name) :
    ∃ m metadata points, j.asMap? = some m ∧
      (JSON.index m "metadata").asMap? = some metadata ∧
      (JSON.index m "data").asSlice? = some points ∧
      (JSON.index metadata "metricName").asString? = some name ∧
      (points = [] ∨
        ∃ pm am, points ≠ [] ∧
          (points.getD (points.length - 1) JSON.null).asMap? = some pm ∧
          (JSON.index metadata "attributes").asMap? = some am) := by
  simp only [decodeDropped, Option.bind_eq_bind, Option.bind_eq_some] at h
  obtain ⟨m, hm, md, hmd, ps, hps, n, hn, h⟩ := h
  cases hl : ps.getLast? with
  | none =>
    rw [hl] at h
    simp only [Option.pure_def, Option.some.injEq] at h
    subst h
    exact ⟨m, md, ps, hm, hmd, hps, hn, Or.inl (List.getLast?_eq_none_iff.1 hl)⟩
  | some last =>
    rw [hl] at h
    simp only [Option.bind_eq_bind, Option.bind_eq_some, Option.pure_def,
      Option.some.injEq] at h
    obtain ⟨pm, hpm, am, ham, rfl⟩ := h
    obtain ⟨hget, hne⟩ := getD_last_of_getLast? JSON.null ps last hl
    exact ⟨m, md, ps, hm, hmd, hps, hn, Or.inr ⟨pm, am, hne, by rw [hget]; exact hpm, ham⟩⟩

theorem decodeSeriesFor_some {role : Bool} {s : serviceTimeseriesExporter} {j : JSON}
    {r : SeriesRead} (h : decodeSeriesFor role s j = some r) :
    (∃ v, r = SeriesRead.known v ∧ decodeSeries role j = some v) ∨
      ∃ name, r = SeriesRead.unknown name ∧ decodeDropped j = some name ∧
        s.serverMetrics.lookup name = none := by
  simp only [decodeSeriesFor, Option.bind_eq_bind, Option.bind_eq_some] at h
  obtain ⟨name, hname, h⟩ := h
  cases hl : s.serverMetrics.lookup name with
  | none =>
    rw [hl] at h
    simp only [Option.isSome_none, Bool.false_eq_true, if_false, Option.pure_def,
      Option.some.injEq] at h
    exact Or.inr ⟨name, h.symm, hname, hl⟩
  | some info =>
    rw [hl] at h
    simp only [Option.isSome_some, if_true, Option.map_eq_some'] at h
    obtain ⟨v, hv, rfl⟩ := h
    exact Or.inl ⟨v, rfl, hv⟩

theorem collectServiceSeries_dropped (s : serviceTimeseriesExporter) (j : JSON)
    (name : String) (st : Scrape) (h : decodeDropped j = some name)
    (hl : s.serverMetrics.lookup name = none) :
    s.collectServiceSeries j st = (Except.ok (), st) := by
  obtain ⟨m, md, ps, hm, hmd, hps, hn, hrest⟩ := decodeDropped_some h
  unfold serviceTimeseriesExporter.collectServiceSeries
  simp only [hm, hmd, hps, typeAssert_some, M.pure_bind]
  rcases hrest with rfl | ⟨pm, am, hne, hpm, ham⟩
  · simp
  · rw [if_neg (by simpa using hne)]
    simp only [hpm, hn, ham, hl, typeAssert_some, M.pure_bind, M.pure_apply]

theorem collectRoleSeries_dropped (s : serviceTimeseriesExporter) (j : JSON)
    (name : String) (st : Scrape) (h : decodeDropped j = some name)
    (hl : s.serverMetrics.lookup name = none) :
    s.collectRoleSeries j st = (Except.ok (), st) := by
  obtain ⟨m, md, ps, hm, hmd, hps, hn, hrest⟩ := decodeDropped_some h
  unfold serviceTimeseriesExporter.collectRoleSeries
  simp only [hm, hmd, hps, typeAssert_some, M.pure_bind]
  rcases hrest with rfl | ⟨pm, am, hne, hpm, ham⟩
  · simp
  · rw [if_neg (by simpa using hne)]
    simp only [hpm, hn, ham, hl, typeAssert_some, M.pure_bind, M.pure_apply]

theorem collectServiceSeries_read (s : serviceTimeseriesExporter)
    (hs : SixLabels s.serverMetrics) (j : JSON) (r : SeriesRead) (st : Scrape)
    (h : decodeSeriesFor false s j = some r) :
    s.collectServiceSeries j st =
      (Except.ok (), { st with samples := st.samples ++ readSamples false s r }) := by
  rcases decodeSeriesFor_some h with ⟨v, rfl, hv⟩ | ⟨name, rfl, hname, hl⟩
  · exact collectServiceSeries_wellFormed s hs j v st hv
  · rw [collectServiceSeries_dropped s j name st hname hl]
    simp [readSamples]

theorem collectRoleSeries_read (s : serviceTimeseriesExporter)
    (hs : SixLabels s.serverMetrics) (j : JSON) (r : SeriesRead) (st : Scrape)
    (h : decodeSeriesFor true s j = some r) :
    s.collectRoleSeries j st =
      (Except.ok (), { st with samples := st.samples ++ readSamples true s r }) := by
  rcases decodeSeriesFor_some h with ⟨v, rfl, hv⟩ | ⟨name, rfl, hname, hl⟩
  · exact collectRoleSeries_wellFormed s hs j v st hv
  · rw [collectRoleSeries_dropped s j name st hname hl]
    simp [readSamples]

theorem decodeEntityFor_some {role : Bool} {s : serviceTimeseriesExporter} {j : JSON}
    {e : List SeriesRead} (h : decodeEntityFor role s j = some e) :
    ∃ m series, j.asMap? = some m ∧ (JSON.index m "timeSeries").asSlice? = some series ∧
      decodeList (decodeSeriesFor role s) series = some e := by
  simp only [decodeEntityFor, Option.bind_eq_bind, Option.bind_eq_some] at h
  obtain ⟨m, hm, series, hseries, hl⟩ := h
  exact ⟨m, series, hm, hseries, hl⟩

theorem decodeTimeseriesFor_some {role : Bool} {s : serviceTimeseriesExporter} {j : JSON}
    {es : List (List SeriesRead)} (h : decodeTimeseriesFor role s j = some es) :
    ∃ m items, j.asMap? = some m ∧ (JSON.index m "items").asSlice? = some items ∧
      decodeList (decodeEntityFor role s) items = some es := by
  simp only [decodeTimeseriesFor, Option.bind_eq_bind, Option.bind_eq_some] at h
  obtain ⟨m, hm, items, hitems, hl⟩ := h
  exact ⟨m, items, hm, hitems, hl⟩

theorem collectServiceEntity_read (s : serviceTimeseriesExporter)
    (hs : SixLabels s.serverMetrics) (j : JSON) (e : List SeriesRead) (st : Scrape)
    (h : decodeEntityFor false s j = some e) :
    s.collectServiceEntity j st =
      (Except.ok (), { st with samples := st.samples ++ e.flatMap (readSamples false s) }) := by
  obtain ⟨m, series, hm, hseries, hl⟩ := decodeEntityFor_some h
  unfold serviceTimeseriesExporter.collectServiceEntity
  simp only [hm, hseries, typeAssert_some, M.pure_bind]
  exact forEach_samples (decodeSeriesFor false s) s.collectServiceSeries (readSamples false s)
    (collectServiceSeries_read s hs) series e st hl

theorem collectRoleEntity_read (s : serviceTimeseriesExporter)
    (hs : SixLabels s.serverMetrics) (j : JSON) (e : List SeriesRead) (st : Scrape)
    (h : decodeEntityFor true s j = some e) :
    s.collectRoleEntity j st =
      (Except.ok (), { st with samples := st.samples ++ e.flatMap (readSamples true s) }) := by
  obtain ⟨m, series, hm, hseries, hl⟩ := decodeEntityFor_some h
  unfold serviceTimeseriesExporter.collectRoleEntity
  simp only [hm, hseries, typeAssert_some, M.pure_bind]
  exact forEach_samples (decodeSeriesFor true s) s.collectRoleSeries (readSamples true s)
    (collectRoleSeries_read s hs) series e st hl

/-- One timeseries scrape on responses whose series are read against the
descriptor map: it completes with the samples of the series as read. -/
theorem timeseriesCollect_read (env : Env) (cfg : Config)
    (s : serviceTimeseriesExporter) (hs : SixLabels s.serverMetrics)
    (serviceEntities roleEntities : List (List SeriesRead))
    (hsvc : (answer env [] (timeseriesFetch env cfg "SERVICE")).bind
      (decodeTimeseriesFor false s) = some serviceEntities)
    (hrole : (answer env [timeseriesFetch env cfg "SERVICE"]
      (timeseriesFetch env cfg "ROLE")).bind (decodeTimeseriesFor true s) =
        some roleEntities) :
    s.Collect env cfg Scrape.start =
      (Except.ok (),
        { fetches := [timeseriesFetch env cfg "SERVICE", timeseriesFetch env cfg "ROLE"]
          samples := (serviceEntities.flatMap fun e => e.flatMap (readSamples false s)) ++
            roleEntities.flatMap fun e => e.flatMap (readSamples true s) }) := by
  simp only [Option.bind_eq_some] at hsvc hrole
  obtain ⟨j1, hj1, hd1⟩ := hsvc
  obtain ⟨j2, hj2, hd2⟩ := hrole
  obtain ⟨m1, items1, hm1, hitems1, hl1⟩ := decodeTimeseriesFor_some hd1
  obtain ⟨m2, items2, hm2, hitems2, hl2⟩ := decodeTimeseriesFor_some hd2
  have hj1' : answer env Scrape.start.fetches (cdhRequest "POST"
      ("http://" ++ cfg.cdhAddress ++ "/api/" ++ cfg.apiVersion ++ "/timeseries")
      (some (assembleBody env "SERVICE")) cfg.userAccount) = some j1 := hj1
  obtain ⟨b1, hb1, hbj1⟩ := cdhResponse_post hj1'
  unfold serviceTimeseriesExporter.Collect
  simp only []
  rw [M.bind_of_ok hb1, hbj1]
  simp only [hm1, hitems1, typeAssert_some, M.pure_bind]
  rw [M.bind_of_ok (forEach_samples (decodeEntityFor false s) s.collectServiceEntity
    (fun e => e.flatMap (readSamples false s)) (collectServiceEntity_read s hs)
    items1 serviceEntities _ hl1)]
  have hj2' : answer env
      ({ fetches := Scrape.start.fetches ++ [cdhRequest "POST"
          ("http://" ++ cfg.cdhAddress ++ "/api/" ++ cfg.apiVersion ++ "/timeseries")
          (some (assembleBody env "SERVICE")) cfg.userAccount],
         samples := Scrape.start.samples ++
          serviceEntities.flatMap fun e => e.flatMap (readSamples false s) } : Scrape).fetches
      (cdhRequest "POST"
        ("http://" ++ cfg.cdhAddress ++ "/api/" ++ cfg.apiVersion ++ "/timeseries")
        (some (assembleBody env "ROLE")) cfg.userAccount) = some j2 := hj2
  obtain ⟨b2, hb2, hbj2⟩ := cdhResponse_post hj2'
  rw [M.bind_of_ok hb2, hbj2]
  simp only [hm2, hitems2, typeAssert_some, M.pure_bind]
  rw [forEach_samples (decodeEntityFor true s) s.collectRoleEntity
    (fun e => e.flatMap (readSamples true s)) (collectRoleEntity_read s hs)
    items2 roleEntities _ hl2]
  simp [Scrape.start, timeseriesFetch]

theorem readSamples_desc (role : Bool) (s : serviceTimeseriesExporter) (r : SeriesRead)
    (x : Sample) (hx : x ∈ readSamples role s r) :
    ∃ kv ∈ s.serverMetrics, x.desc = kv.2.Desc := by
  cases r with
  | unknown name => simp [readSamples] at hx
  | known v => exact seriesSamples_desc role s v x hx

theorem collectSeries_noAttributes (s : serviceTimeseriesExporter) (j : JSON) (st : Scrape)
    (m metadata : List (String × JSON)) (points : List JSON) (pm : List (String × JSON))
    (name : String)
    (hm : j.asMap? = some m)
    (hmd : (JSON.index m "metadata").asMap? = some metadata)
    (hps : (JSON.index m "data").asSlice? = some points)
    (hne : points ≠ [])
    (hpm : (points.getD (points.length - 1) JSON.null).asMap? = some pm)
    (hn : (JSON.index metadata "metricName").asString? = some name)
    (ha : (JSON.index metadata "attributes").asMap? = none) :
    s.collectServiceSeries j st = (Except.error Panic.typeAssertion, st) ∧
      s.collectRoleSeries j st = (Except.error Panic.typeAssertion, st) := by
  constructor
  · unfold serviceTimeseriesExporter.collectServiceSeries
    simp only [hm, hmd, hps, typeAssert_some, M.pure_bind]
    rw [if_neg (by simpa using hne)]
    simp only [hpm, hn, ha, typeAssert_some, typeAssert_none, M.pure_bind, throwPanic_bind,
      throwPanic_apply]
  · unfold serviceTimeseriesExporter.collectRoleSeries
    simp only [hm, hmd, hps, typeAssert_some, M.pure_bind]
    rw [if_neg (by simpa using hne)]
    simp only [hpm, hn, ha, typeAssert_some, typeAssert_none, M.pure_bind, throwPanic_bind,
      throwPanic_apply]
/-! ### The status ordinal -/

/-- C1: `checkStatus` maps GOOD, DISABLED, HISTORY_NOT_AVAILABLE, NOT_AVAILABLE,
CONCERNING and BAD to 0, 1, 2, 3, 4 and 5, and every other string (the empty
string and `good` among them) to 6; the result is always one of 0..6 and is 6
exactly when the string is none of the six tokens. -/
theorem checkStatus_table (s : String) :
    checkStatus "GOOD" = 0 ∧ checkStatus "DISABLED" = 1 ∧
    checkStatus "HISTORY_NOT_AVAILABLE" = 2 ∧ checkStatus "NOT_AVAILABLE" = 3 ∧
    checkStatus "CONCERNING" = 4 ∧ checkStatus "BAD" = 5 ∧
    checkStatus "" = 6 ∧ checkStatus "good" = 6 ∧
    (checkStatus s = 6 ↔ s ∉ statusTokens) ∧
    (∃ n : Nat, n ≤ 6 ∧ checkStatus s = (n : Float64)) := by
  have key : checkStatus s = 6 ↔ s ∉ statusTokens := by
    unfold checkStatus statusTokens
    simp only [List.mem_cons, List.mem_singleton, List.not_mem_nil, or_false, not_or]
    constructor
    · intro h
      split_ifs at h with h1 h2 h3 h4 h5 h6 <;> first | exact ⟨h1, h2, h3, h4, h5, h6⟩ | (norm_num at h)
    · rintro ⟨h1, h2, h3, h4, h5, h6⟩
      simp [h1, h2, h3, h4, h5, h6]
  refine ⟨?_, ?_, ?_, ?_, ?_, ?_, ?_, ?_, key, ?_⟩
  · simp [checkStatus]
  · simp [checkStatus]
  · simp [checkStatus]
  · simp [checkStatus]
  · simp [checkStatus]
  · simp [checkStatus]
  · simp [checkStatus]
  · simp [checkStatus]
  · unfold checkStatus
    split_ifs
    · exact ⟨0, by norm_num, by norm_num⟩
    · exact ⟨1, by norm_num, by norm_num⟩
    · exact ⟨2, by norm_num, by norm_num⟩
    · exact ⟨3, by norm_num, by norm_num⟩
    · exact ⟨4, by norm_num, by norm_num⟩
    · exact ⟨5, by norm_num, by norm_num⟩
    · exact ⟨6, by norm_num, by norm_num⟩


/-! ### Claims on the health status collector -/

/-- C7: on well-formed upstream responses one scrape of the health collector
issues exactly 2n fetches for n configured components, all with method GET:
first the service URL of every component in configured order, then the
role-list URL of every component in configured order, with the cluster name
path-escaped. -/
theorem healthCollect_fetches (env : Env) (cfg : Config) (services : List Service)
    (roleLists : List (List Role))
    (hsvc : Serves env decodeService [] (serviceFetches env cfg) services)
    (hrole : Serves env decodeRoleList (serviceFetches env cfg) (roleListFetches env cfg)
      roleLists) :
    (NewServiceCollector.Collect env cfg Scrape.start).2.fetches.length =
        2 * cfg.cdhCompenent.length ∧
      (∀ req ∈ (NewServiceCollector.Collect env cfg Scrape.start).2.fetches,
        req.method = "GET") ∧
      (NewServiceCollector.Collect env cfg Scrape.start).2.fetches.map (fun req => req.url) =
        (cfg.cdhCompenent.map fun c =>
          "http://" ++ cfg.cdhAddress ++ "/api/" ++ cfg.apiVersion ++ "/clusters/" ++
            env.pathEscape cfg.clusterName ++ "/services/" ++ c ++
            "?view=FULL_WITH_HEALTH_CHECK_EXPLANATION") ++
        (cfg.cdhCompenent.map fun c =>
          "http://" ++ cfg.cdhAddress ++ "/api/" ++ cfg.apiVersion ++ "/clusters/" ++
            env.pathEscape cfg.clusterName ++ "/services/" ++ c ++
            "/roles?view=FULL_WITH_HEALTH_CHECK_EXPLANATION") := by
  rw [healthCollect_wellFormed env cfg services roleLists hsvc hrole]
  refine ⟨?_, ?_, ?_⟩
  · simp [serviceFetches, roleListFetches]
    omega
  · intro req hreq
    simp only [serviceFetches, roleListFetches, List.mem_append, List.mem_map] at hreq
    rcases hreq with ⟨c, _, rfl⟩ | ⟨c, _, rfl⟩ <;> rfl
  · simp [serviceFetches, roleListFetches, cdhRequest, serviceUrl, roleListUrl,
      Function.comp_def]

/-- C7, on the concrete cluster: two configured components give four fetches,
the two service URLs and then the two role-list URLs. -/
theorem healthCollect_fetches_demo :
    (NewServiceCollector.Collect demoEnv demoCfg Scrape.start).2.fetches.length = 2 * 2 ∧
      (NewServiceCollector.Collect demoEnv demoCfg Scrape.start).2.fetches.map
          (fun req => req.url) =
        ["http://1.1.1.1:17180/api/v33/clusters/Cluster%201/services/hdfs?view=FULL_WITH_HEALTH_CHECK_EXPLANATION",
         "http://1.1.1.1:17180/api/v33/clusters/Cluster%201/services/yarn?view=FULL_WITH_HEALTH_CHECK_EXPLANATION",
         "http://1.1.1.1:17180/api/v33/clusters/Cluster%201/services/hdfs/roles?view=FULL_WITH_HEALTH_CHECK_EXPLANATION",
         "http://1.1.1.1:17180/api/v33/clusters/Cluster%201/services/yarn/roles?view=FULL_WITH_HEALTH_CHECK_EXPLANATION"] :=
  have h := healthCollect_fetches demoEnv demoCfg [demoHdfs, demoYarn] [demoHdfsRoles, []]
    ⟨by decide, by decide, trivial⟩ ⟨by decide, by decide, trivial⟩
  ⟨h.1, h.2.2.trans (by decide)⟩

/-- C8: on well-formed upstream payloads one scrape of the health collector
completes and emits the reference sequence: per component in configured order
the service summary and then one detail per health check, and then per
component and per role in payload order the role summary followed by one detail
per health check of the role; values are `checkStatus` of the status tokens. A
service with k health checks yields 1 + k samples, and every label tuple has
the length and order of its descriptor. -/
theorem healthCollect_samples (env : Env) (cfg : Config) (services : List Service)
    (roleLists : List (List Role))
    (hsvc : Serves env decodeService [] (serviceFetches env cfg) services)
    (hrole : Serves env decodeRoleList (serviceFetches env cfg) (roleListFetches env cfg)
      roleLists) :
    (NewServiceCollector.Collect env cfg Scrape.start).1 = Except.ok () ∧
      (NewServiceCollector.Collect env cfg Scrape.start).2.samples =
        (services.flatMap fun svc =>
          { desc := NewServiceCollector.serviceStateSummary,
            value := checkStatus svc.healthSummary, labelValues := [svc.type] } ::
          svc.healthChecks.map fun hc =>
            { desc := NewServiceCollector.servieState, value := checkStatus hc.summary,
              labelValues := [svc.type, hc.name, hc.explanation] }) ++
        (roleLists.flatMap fun roles => roles.flatMap fun r =>
          { desc := NewServiceCollector.servieRoleStateSummary,
            value := checkStatus r.healthSummary,
            labelValues := [r.type, r.clusterName, r.hostName, r.name, r.serviceType] } ::
          r.healthChecks.map fun hc =>
            { desc := NewServiceCollector.servieRoleState, value := checkStatus hc.summary,
              labelValues := [r.type, r.clusterName, r.hostName, r.serviceType, hc.name,
                hc.explanation, r.name] }) ∧
      (∀ svc : Service,
        (serviceSamples NewServiceCollector svc).length = 1 + svc.healthChecks.length) ∧
      (∀ x ∈ (NewServiceCollector.Collect env cfg Scrape.start).2.samples,
        x.labelValues.length = x.desc.variableLabels.length) ∧
      NewServiceCollector.serviceStateSummary.variableLabels = ["service_type"] ∧
      NewServiceCollector.servieState.variableLabels =
        ["service_type", "health_check_name", "explanation"] ∧
      NewServiceCollector.servieRoleStateSummary.variableLabels =
        ["role_type", "cluster_name", "host_name", "role_name", "service_type"] ∧
      NewServiceCollector.servieRoleState.variableLabels =
        ["role_type", "cluster_name", "host_name", "service_type", "health_check_name",
          "explanation", "role_name"] := by
  rw [healthCollect_wellFormed env cfg services roleLists hsvc hrole]
  refine ⟨rfl, rfl, ?_, ?_, rfl, rfl, rfl, rfl⟩
  · intro svc
    simp [serviceSamples]
    omega
  · intro x hx
    simp only [healthReference, serviceSamples, roleSamples, List.mem_append, List.mem_flatMap,
      List.mem_cons, List.mem_map] at hx
    rcases hx with ⟨svc, _, rfl | ⟨hc, _, rfl⟩⟩ | ⟨roles, _, r, _, rfl | ⟨hc, _, rfl⟩⟩ <;> rfl

/-- C8, on the concrete cluster: the scrape completes with the six samples of
the reference sequence, in order. -/
theorem healthCollect_samples_demo :
    (NewServiceCollector.Collect demoEnv demoCfg Scrape.start).1 = Except.ok () ∧
      (NewServiceCollector.Collect demoEnv demoCfg Scrape.start).2.samples.map
          (fun x => (x.desc.fqName, x.value, x.labelValues)) =
        [("cdh_service_state_summary", 4, ["HDFS"]),
         ("cdh_service_state", 4, ["HDFS", "HDFS_FREE_SPACE", "Space low."]),
         ("cdh_service_state", 0, ["HDFS", "HDFS_CANARY", "Canary passed."]),
         ("cdh_service_state_summary", 0, ["YARN"]),
         ("cdh_service_role_state_summary", 5,
           ["NAMENODE", "Cluster 1", "nn1.example.com", "hdfs-NAMENODE-1", "HDFS"]),
         ("cdh_service_role_state", 5,
           ["NAMENODE", "Cluster 1", "nn1.example.com", "HDFS", "NAME_NODE_SAFE_MODE",
             "In safe mode.", "hdfs-NAMENODE-1"])] :=
  have h := healthCollect_samples demoEnv demoCfg [demoHdfs, demoYarn] [demoHdfsRoles, []]
    ⟨by decide, by decide, trivial⟩ ⟨by decide, by decide, trivial⟩
  ⟨h.1, by rw [h.2.1]; rfl⟩


/-- C6 (amended): when the service responses of the components before `c` are
well formed and the service response of `c` is valid JSON that is not an object
with an array `healthChecks` and strings `healthSummary` and `type`, the scrape
ends with a panic at `c`: the fetches made are the service fetches up to `c`,
the samples emitted are those of the components before `c`, and `c`, the
components after it and all roles contribute none. Whenever all responses are
well formed the scrape completes. -/
theorem healthCollect_missingField (env : Env) (cfg : Config) (before after : List String)
    (c : String) (services : List Service) (j : JSON)
    (hcfg : cfg.cdhCompenent = before ++ c :: after)
    (hbefore : Serves env decodeService []
      (before.map fun c => cdhRequest "GET" (serviceUrl env cfg c) none cfg.userAccount)
      services)
    (hj : answer env
      (before.map fun c => cdhRequest "GET" (serviceUrl env cfg c) none cfg.userAccount)
      (cdhRequest "GET" (serviceUrl env cfg c) none cfg.userAccount) = some j)
    (hbad : ∀ m, j.asMap? = some m →
      (JSON.index m "healthChecks").asSlice? = none ∨
      (JSON.index m "healthSummary").asString? = none ∨
      (JSON.index m "type").asString? = none) :
    NewServiceCollector.Collect env cfg Scrape.start =
        (Except.error Panic.typeAssertion,
          { fetches := (before ++ [c]).map fun c =>
              cdhRequest "GET" (serviceUrl env cfg c) none cfg.userAccount
            samples := services.flatMap (serviceSamples NewServiceCollector) }) ∧
      ∀ (env2 : Env) (cfg2 : Config) (services2 : List Service) (roleLists2 : List (List Role)),
        Serves env2 decodeService [] (serviceFetches env2 cfg2) services2 →
        Serves env2 decodeRoleList (serviceFetches env2 cfg2) (roleListFetches env2 cfg2)
          roleLists2 →
        (NewServiceCollector.Collect env2 cfg2 Scrape.start).1 = Except.ok () := by
  constructor
  · have h1 : forEach before (NewServiceCollector.collectService env cfg
        (env.pathEscape cfg.clusterName)) Scrape.start =
        (Except.ok (), { fetches := before.map fun c =>
                           cdhRequest "GET" (serviceUrl env cfg c) none cfg.userAccount,
                         samples := services.flatMap (serviceSamples NewServiceCollector) }) :=
      (forEach_collectService env cfg before services Scrape.start hbefore).trans
        (by simp [Scrape.start])
    have h2 := collectService_missingField env cfg c
      { fetches := before.map fun c =>
          cdhRequest "GET" (serviceUrl env cfg c) none cfg.userAccount,
        samples := services.flatMap (serviceSamples NewServiceCollector) } j hj hbad
    show (forEach cfg.cdhCompenent (NewServiceCollector.collectService env cfg
        (env.pathEscape cfg.clusterName)) >>= fun _ =>
          forEach cfg.cdhCompenent (NewServiceCollector.collectRoles env cfg
            (env.pathEscape cfg.clusterName))) Scrape.start = _
    rw [hcfg]
    have h3 : forEach (before ++ c :: after) (NewServiceCollector.collectService env cfg
        (env.pathEscape cfg.clusterName)) Scrape.start =
        (Except.error Panic.typeAssertion,
          { fetches := (before ++ [c]).map fun c =>
              cdhRequest "GET" (serviceUrl env cfg c) none cfg.userAccount
            samples := services.flatMap (serviceSamples NewServiceCollector) }) := by
      rw [forEach_append, M.bind_of_ok h1, forEach_cons, M.bind_of_error h2]
      simp
    rw [M.bind_of_error h3]
  · intro env2 cfg2 services2 roleLists2 hs hr
    rw [healthCollect_wellFormed env2 cfg2 services2 roleLists2 hs hr]

/-- C6 (counterexample): with components `hdfs` and `yarn`, when the `hdfs`
service response is valid JSON without the field `healthChecks`, the scrape
does not complete: it panics after the first fetch and emits no sample at all,
although the response served for `yarn` is well formed. -/
theorem healthCollect_missingField_aborts :
    (NewServiceCollector.Collect (demoEnvWith demoHdfsDocNoChecks) demoCfg Scrape.start).1 =
        Except.error Panic.typeAssertion ∧
      (NewServiceCollector.Collect (demoEnvWith demoHdfsDocNoChecks) demoCfg
        Scrape.start).2.samples = [] ∧
      (NewServiceCollector.Collect (demoEnvWith demoHdfsDocNoChecks) demoCfg
        Scrape.start).2.fetches.length = 1 ∧
      (answer (demoEnvWith demoHdfsDocNoChecks)
          [cdhRequest "GET" (serviceUrl (demoEnvWith demoHdfsDocNoChecks) demoCfg "hdfs") none
            demoCfg.userAccount]
          (cdhRequest "GET" (serviceUrl (demoEnvWith demoHdfsDocNoChecks) demoCfg "yarn") none
            demoCfg.userAccount)).bind decodeService = some demoYarn := by
  refine ⟨?_, ?_, ?_, ?_⟩ <;> rfl

/-- C6 (amended), on the concrete cluster: `hdfs` is served well formed and
`yarn` without its `type`; the scrape panics at `yarn` after two fetches, with
the three samples of `hdfs` emitted and nothing else. -/
theorem healthCollect_missingField_demo :
    NewServiceCollector.Collect demoEnvNoType demoCfg Scrape.start =
      (Except.error Panic.typeAssertion,
        { fetches := ["hdfs", "yarn"].map fun c =>
            cdhRequest "GET" (serviceUrl demoEnvNoType demoCfg c) none demoCfg.userAccount
          samples := serviceSamples NewServiceCollector demoHdfs }) :=
  (healthCollect_missingField demoEnvNoType demoCfg ["hdfs"] [] "yarn" [demoHdfs]
    demoYarnDocNoType rfl ⟨by decide, trivial⟩ rfl
    (fun m hm => by
      have hm2 : m = [("name", JSON.str "yarn"), ("healthSummary", JSON.str "GOOD"),
          ("healthChecks", JSON.arr [])] := by
        simpa [demoYarnDocNoType, JSON.asMap?] using hm.symm
      subst hm2
      exact Or.inr (Or.inr rfl))).1.trans (by simp)


/-! ### Claims on the timeseries collector -/

/-- C2: on well-formed responses one scrape of the timeseries collector, run
on an exporter returned by the constructor, completes, and the values of the
emitted samples are, over the series of the SERVICE response and then of the
ROLE response in payload order: nothing for a series without data points, and
for a series with data points whose metric name is in the schema map exactly
one value, that of the last data point. -/
theorem timeseriesCollect_values (env0 env : Env) (cfg0 cfg : Config) (st0 : Scrape)
    (s : serviceTimeseriesExporter) (serviceEntities roleEntities : List (List Series))
    (hs : (NewServiceTimeseriesExporter env0 cfg0 st0).1 = Except.ok s)
    (hsvc : (answer env [] (timeseriesFetch env cfg "SERVICE")).bind (decodeTimeseries false) =
      some serviceEntities)
    (hrole : (answer env [timeseriesFetch env cfg "SERVICE"]
      (timeseriesFetch env cfg "ROLE")).bind (decodeTimeseries true) = some roleEntities) :
    (s.Collect env cfg Scrape.start).1 = Except.ok () ∧
      (s.Collect env cfg Scrape.start).2.samples.map (fun x => x.value) =
        (serviceEntities ++ roleEntities).flatMap fun e => e.flatMap fun v =>
          if (s.serverMetrics.lookup v.metricName).isSome then v.data.getLast?.toList
          else [] := by
  rw [timeseriesCollect_wellFormed env cfg s (newExporter_sixLabels env0 cfg0 st0 s hs)
    serviceEntities roleEntities hsvc hrole]
  refine ⟨rfl, ?_⟩
  simp only [timeseriesReference, List.map_append, List.map_flatMap, seriesSamples_values,
    List.flatMap_append]

/-- C2, on the concrete upstream: the series with data points 1.0 and 2.5
yields the single value 2.5. -/
theorem timeseriesCollect_values_demo :
    (demoExporter.Collect (demoTsEnv demoServiceSeriesDoc demoNoSeriesDoc) demoCfg
      Scrape.start).2.samples.map (fun x => x.value) = [2.5] :=
  (timeseriesCollect_values (demoTsEnv demoServiceSeriesDoc demoNoSeriesDoc)
    (demoTsEnv demoServiceSeriesDoc demoNoSeriesDoc) demoCfg demoCfg Scrape.start demoExporter
    [[{ metricName := "cpu_user", attributes := demoServiceAttrs, data := [1.0, 2.5] }]] []
    rfl rfl rfl).2.trans rfl

/-- C3: on well-formed responses every sample emitted by one scrape of the
timeseries collector carries six label values in descriptor order
(entity_name, service_type, category, hostname, role_type, service_name): for
a series of the SERVICE response the entity name, service type and category of
its attributes, two empty strings and the service name; for a series of the
ROLE response the entity name, service type, category, host name, role type
and service name of its attributes. -/
theorem timeseriesCollect_labels (env0 env : Env) (cfg0 cfg : Config) (st0 : Scrape)
    (s : serviceTimeseriesExporter) (serviceEntities roleEntities : List (List Series))
    (hs : (NewServiceTimeseriesExporter env0 cfg0 st0).1 = Except.ok s)
    (hsvc : (answer env [] (timeseriesFetch env cfg "SERVICE")).bind (decodeTimeseries false) =
      some serviceEntities)
    (hrole : (answer env [timeseriesFetch env cfg "SERVICE"]
      (timeseriesFetch env cfg "ROLE")).bind (decodeTimeseries true) = some roleEntities) :
    (s.Collect env cfg Scrape.start).2.samples.map (fun x => x.labelValues) =
        (serviceEntities.flatMap fun e => e.flatMap fun v =>
          if (s.serverMetrics.lookup v.metricName).isSome && !v.data.isEmpty then
            [[v.attributes.entityName, v.attributes.serviceType, v.attributes.category, "", "",
              v.attributes.serviceName]]
          else []) ++
        (roleEntities.flatMap fun e => e.flatMap fun v =>
          if (s.serverMetrics.lookup v.metricName).isSome && !v.data.isEmpty then
            [[v.attributes.entityName, v.attributes.serviceType, v.attributes.category,
              v.attributes.hostname, v.attributes.roleType, v.attributes.serviceName]]
          else []) ∧
      ∀ x ∈ (s.Collect env cfg Scrape.start).2.samples,
        x.desc.variableLabels =
          ["entity_name", "service_type", "category", "hostname", "role_type",
            "service_name"] := by
  have h6 := newExporter_sixLabels env0 cfg0 st0 s hs
  rw [timeseriesCollect_wellFormed env cfg s h6 serviceEntities roleEntities hsvc hrole]
  constructor
  · simp only [timeseriesReference, List.map_append, List.map_flatMap, seriesSamples_labels,
      seriesLabels, Bool.false_eq_true, if_false, if_true]
  · intro x hx
    simp only [timeseriesReference, List.mem_append, List.mem_flatMap] at hx
    rcases hx with ⟨e, _, v, _, hx⟩ | ⟨e, _, v, _, hx⟩
    · obtain ⟨kv, hkv, hd⟩ := seriesSamples_desc false s v x hx
      rw [hd]
      exact h6 kv hkv
    · obtain ⟨kv, hkv, hd⟩ := seriesSamples_desc true s v x hx
      rw [hd]
      exact h6 kv hkv

/-- C3, on the concrete upstream: schema `cpu_user`, one SERVICE series
`cpu_user` with attributes svc1, HDFS, SERVICE, hdfs1 and data points 1.0 and
2.5, and a ROLE response without items give exactly one sample, with value 2.5
and labels svc1, HDFS, SERVICE, two empty strings and hdfs1. -/
theorem timeseriesCollect_labels_demo :
    (NewServiceTimeseriesExporter (demoTsEnv demoServiceSeriesDoc demoNoSeriesDoc) demoCfg
        Scrape.start).1 = Except.ok demoExporter ∧
      (demoExporter.Collect (demoTsEnv demoServiceSeriesDoc demoNoSeriesDoc) demoCfg
        Scrape.start).2.samples.map (fun x => x.labelValues) =
        [["svc1", "HDFS", "SERVICE", "", "", "hdfs1"]] ∧
      (demoExporter.Collect (demoTsEnv demoServiceSeriesDoc demoNoSeriesDoc) demoCfg
        Scrape.start).2.samples.map (fun x => x.value) = [2.5] :=
  have h := timeseriesCollect_labels (demoTsEnv demoServiceSeriesDoc demoNoSeriesDoc)
    (demoTsEnv demoServiceSeriesDoc demoNoSeriesDoc) demoCfg demoCfg Scrape.start demoExporter
    [[{ metricName := "cpu_user", attributes := demoServiceAttrs, data := [1.0, 2.5] }]] []
    rfl rfl rfl
  ⟨rfl, h.1.trans rfl, rfl⟩

/-- C4 (amended): one scrape of the timeseries collector, run on an exporter
returned by the constructor, completes when every series of the two responses
either has a metric name that is a key of the schema map and is well formed,
or has a metric name that is not a key and the shape `Collect` reads before
its lookup (object `metadata` with a string `metricName`, array `data`, and
with data points an object as last point and an object `attributes`). A series
of the second kind yields no sample, the samples emitted are those of the
series of the first kind in payload order, and every emitted sample carries a
descriptor of the schema map. A series with data points whose `attributes` is
not an object makes the loop body of either pass panic, whatever its metric
name. -/
theorem timeseriesCollect_unknownMetric (env0 env : Env) (cfg0 cfg : Config) (st0 : Scrape)
    (s : serviceTimeseriesExporter) (serviceEntities roleEntities : List (List SeriesRead))
    (hs : (NewServiceTimeseriesExporter env0 cfg0 st0).1 = Except.ok s)
    (hsvc : (answer env [] (timeseriesFetch env cfg "SERVICE")).bind
      (decodeTimeseriesFor false s) = some serviceEntities)
    (hrole : (answer env [timeseriesFetch env cfg "SERVICE"]
      (timeseriesFetch env cfg "ROLE")).bind (decodeTimeseriesFor true s) =
        some roleEntities) :
    (s.Collect env cfg Scrape.start).1 = Except.ok () ∧
      (s.Collect env cfg Scrape.start).2.samples =
        (serviceEntities.flatMap fun e => e.flatMap fun r =>
          match r with
          | SeriesRead.unknown _ => []
          | SeriesRead.known v => seriesSamples false s v) ++
        (roleEntities.flatMap fun e => e.flatMap fun r =>
          match r with
          | SeriesRead.unknown _ => []
          | SeriesRead.known v => seriesSamples true s v) ∧
      (∀ x ∈ (s.Collect env cfg Scrape.start).2.samples,
        ∃ kv ∈ s.serverMetrics, x.desc = kv.2.Desc) ∧
      ∀ (j : JSON) (st : Scrape) (m metadata pm : List (String × JSON)) (points : List JSON)
        (name : String),
        j.asMap? = some m →
        (JSON.index m "metadata").asMap? = some metadata →
        (JSON.index m "data").asSlice? = some points →
        points ≠ [] →
        (points.getD (points.length - 1) JSON.null).asMap? = some pm →
        (JSON.index metadata "metricName").asString? = some name →
        (JSON.index metadata "attributes").asMap? = none →
        s.collectServiceSeries j st = (Except.error Panic.typeAssertion, st) ∧
          s.collectRoleSeries j st = (Except.error Panic.typeAssertion, st) := by
  have h6 := newExporter_sixLabels env0 cfg0 st0 s hs
  rw [timeseriesCollect_read env cfg s h6 serviceEntities roleEntities hsvc hrole]
  refine ⟨rfl, ?_, ?_, ?_⟩
  · have hf : ∀ role : Bool, readSamples role s = fun r =>
        match r with
        | SeriesRead.unknown _ => []
        | SeriesRead.known v => seriesSamples role s v := by
      intro role
      funext r
      cases r <;> rfl
    simp only [hf]
  · intro x hx
    simp only [List.mem_append, List.mem_flatMap] at hx
    rcases hx with ⟨e, _, r, _, hx⟩ | ⟨e, _, r, _, hx⟩
    · exact readSamples_desc false s r x hx
    · exact readSamples_desc true s r x hx
  · intro j st m metadata pm points name hm hmd hps hne hpm hn ha
    exact collectSeries_noAttributes s j st m metadata points pm name hm hmd hps hne hpm hn ha

/-- C4 (counterexample): the schema lists `cpu_user` only and the SERVICE
response holds a series `mem_rss` with one data point and no attributes,
followed by a well-formed series `cpu_user`; the scrape does not go on: it
panics at the unknown series after the first fetch, emits no sample and never
makes the ROLE query. -/
theorem timeseriesCollect_unknownMetric_aborts :
    (NewServiceTimeseriesExporter (demoTsEnv demoBareFirstDoc demoNoSeriesDoc) demoCfg
        Scrape.start).1 = Except.ok demoExporter ∧
      demoExporter.serverMetrics.lookup "mem_rss" = none ∧
      (demoExporter.Collect (demoTsEnv demoBareFirstDoc demoNoSeriesDoc) demoCfg
        Scrape.start).1 = Except.error Panic.typeAssertion ∧
      (demoExporter.Collect (demoTsEnv demoBareFirstDoc demoNoSeriesDoc) demoCfg
        Scrape.start).2.samples = [] ∧
      (demoExporter.Collect (demoTsEnv demoBareFirstDoc demoNoSeriesDoc) demoCfg
        Scrape.start).2.fetches.length = 1 := by
  refine ⟨?_, ?_, ?_, ?_, ?_⟩ <;> rfl

/-- C4 (amended), on the concrete upstream: the SERVICE response holds, between
two `cpu_user` series, a series `mem_rss` whose data point has a text value and
whose attributes are empty, and a series `mem_rss` without data points and
attributes; the scrape completes, drops both and goes on to the ROLE
response. -/
theorem timeseriesCollect_unknownMetric_demo :
    (demoExporter.Collect (demoTsEnv demoLooseSeriesResponse demoRoleSeriesDoc) demoCfg
        Scrape.start).1 = Except.ok () ∧
      (demoExporter.Collect (demoTsEnv demoLooseSeriesResponse demoRoleSeriesDoc) demoCfg
        Scrape.start).2.samples.map (fun x => (x.desc.fqName, x.value, x.labelValues)) =
        [("cdh_cpu_user", 2.5, ["svc1", "HDFS", "SERVICE", "", "", "hdfs1"]),
         ("cdh_cpu_user", 4.0, ["role1", "HDFS", "ROLE", "nn1.example.com", "NAMENODE",
           "hdfs1"])] :=
  have h := timeseriesCollect_unknownMetric
    (demoTsEnv demoLooseSeriesResponse demoRoleSeriesDoc)
    (demoTsEnv demoLooseSeriesResponse demoRoleSeriesDoc) demoCfg demoCfg Scrape.start
    demoExporter
    [[SeriesRead.known
        { metricName := "cpu_user", attributes := demoServiceAttrs, data := [1.0, 2.5] },
      SeriesRead.unknown "mem_rss",
      SeriesRead.unknown "mem_rss",
      SeriesRead.known
        { metricName := "cpu_user", attributes := demoServiceAttrs, data := [] }]]
    [[SeriesRead.known
        { metricName := "cpu_user", attributes := demoRoleAttrs, data := [3.0, 9.0, 4.0] }]]
    rfl rfl rfl
  ⟨h.1, by rw [h.2.1]; rfl⟩

/-- C5: for a well-formed schema listing whose N entries have pairwise distinct
names, the constructor returns an exporter whose descriptor map has exactly
the N entry names as keys, and `Describe` sends exactly N descriptors, one per
entry, each with the label names entity_name, service_type, category,
hostname, role_type and service_name. -/
theorem newExporter_describe (env : Env) (cfg : Config) (entries : List MetricSchemaEntry)
    (h : (answer env [] (schemaFetch cfg)).bind decodeSchema = some entries)
    (hnd : (entries.map fun e => e.metricName).Nodup) :
    ∃ s : serviceTimeseriesExporter,
      (NewServiceTimeseriesExporter env cfg Scrape.start).1 = Except.ok s ∧
      s.serverMetrics.map Prod.fst = entries.map (fun e => e.metricName) ∧
      (s.serverMetrics.map Prod.fst).length = entries.length ∧
      s.Describe.length = entries.length ∧
      s.Describe = entries.map (fun e =>
        { fqName := buildFQName "" "cdh" e.metricName, help := e.description,
          variableLabels := ["entity_name", "service_type", "category", "hostname",
            "role_type", "service_name"] }) ∧
      ∀ d ∈ s.Describe, d.variableLabels =
        ["entity_name", "service_type", "category", "hostname", "role_type", "service_name"] := by
  refine ⟨{ serverMetrics := schemaMap entries }, ?_, ?_, ?_, ?_, ?_, ?_⟩
  · rw [newExporter_wellFormed env cfg Scrape.start entries h hnd]
  · exact schemaMap_keys entries
  · simp [schemaMap]
  · simp [serviceTimeseriesExporter.Describe, schemaMap]
  · simp [serviceTimeseriesExporter.Describe, schemaMap, Function.comp_def]
  · intro d hd
    simp only [serviceTimeseriesExporter.Describe, schemaMap, List.map_map, List.mem_map,
      Function.comp_apply] at hd
    obtain ⟨e, _, rfl⟩ := hd
    rfl

/-- C5, on the concrete upstream: the listing with the single entry `cpu_user`
gives the exporter with the one key `cpu_user`, and `Describe` sends one
descriptor, named `cdh_cpu_user`. -/
theorem newExporter_describe_demo :
    (NewServiceTimeseriesExporter (demoTsEnv demoServiceSeriesDoc demoNoSeriesDoc) demoCfg
        Scrape.start).1 = Except.ok demoExporter ∧
      demoExporter.serverMetrics.map Prod.fst = ["cpu_user"] ∧
      demoExporter.Describe.length = 1 ∧
      demoExporter.Describe.map (fun d => d.fqName) = ["cdh_cpu_user"] :=
  have ⟨s, h1, h2, _, h4, h5, _⟩ := newExporter_describe
    (demoTsEnv demoServiceSeriesDoc demoNoSeriesDoc) demoCfg demoSchema rfl (by decide)
  have hs : s = demoExporter := Except.ok.inj (h1.symm.trans rfl)
  ⟨hs ▸ h1, hs ▸ h2, hs ▸ h4, by rw [← hs, h5]; rfl⟩

/-! ### Claims on the transport -/

/-- C9 (the code at failing inputs): with an upstream that cannot be reached,
`cdhResponse` with method GET or POST hands the request to `client.Do` and then
panics on the nil response instead of returning an empty result; with a URL
that `http.NewRequest` rejects it panics on the nil request before any request
is made; when the body read ends in an error after some bytes it returns those
bytes, not an empty result. Only for a method other than GET and POST does it
return an empty result without making a request. -/
theorem cdhResponse_failures :
    cdhResponse failingEnv "http://unreachable:17180/api/v33/timeseries/schema" "GET" none
        "Basic YWRtaW46YWRtaW4=" Scrape.start =
      (Except.error Panic.nilDereference,
        { fetches := [cdhRequest "GET" "http://unreachable:17180/api/v33/timeseries/schema"
            none "Basic YWRtaW46YWRtaW4="],
          samples := [] }) ∧
    cdhResponse failingEnv "http://unreachable:17180/api/v33/timeseries" "POST" (some [1, 2])
        "Basic YWRtaW46YWRtaW4=" Scrape.start =
      (Except.error Panic.nilDereference,
        { fetches := [cdhRequest "POST" "http://unreachable:17180/api/v33/timeseries"
            (some [1, 2]) "Basic YWRtaW46YWRtaW4="],
          samples := [] }) ∧
    cdhResponse failingEnv "http://bad host/api" "GET" none "Basic YWRtaW46YWRtaW4="
        Scrape.start =
      (Except.error Panic.nilDereference, { fetches := [], samples := [] }) ∧
    (cdhResponse failingEnv "http://1.1.1.1:17180/api/v33/timeseries/schema" "GET" none
        "Basic YWRtaW46YWRtaW4=" Scrape.start).1 = Except.ok [123, 34] ∧
    cdhResponse failingEnv "http://1.1.1.1:17180/api/v33/timeseries/schema" "PUT" none
        "Basic YWRtaW46YWRtaW4=" Scrape.start =
      (Except.ok [], { fetches := [], samples := [] }) := by
  refine ⟨?_, ?_, ?_, ?_, ?_⟩ <;> rfl

end CdhExporter
